import Mathlib

/-!
Shallow embedding of the ledger/posting engine of the `ai-accountant` backend
(`src/backend/app`): chart of accounts, journal entries and lines, the posting
rules that translate transactions / invoices / bills into balanced line sets,
the balance engine and the trial-balance aggregator, plus theorems checking the
specification claims against these definitions.

Monetary amounts (Python `float`) are modelled as exact rationals `ℚ`; dates as
integers ordered by `≤` (only comparisons matter to the embedded code); SQL
rows as Lean structures and tables as lists; `None`-able columns as `Option`.
-/

namespace AiAccountant

/-- Chart-of-accounts row (`src/backend/app/models/account.py`). -/
structure Account where
  id : Nat
  code : String
  name : String
  account_type : String
  sub_type : Option String := none
  parent_account_id : Option Nat := none
  is_active : Bool := true
  is_system : Bool := false
  tax_code : Option String := none
  normal_balance : Option String := none
  deriving Repr, DecidableEq

/-- Journal entry line (`src/backend/app/models/journal_entry.py`).  The same
shape is used for the candidate line dicts built by the posting rules. -/
structure JournalEntryLine where
  account_id : Nat
  description : Option String := none
  debit : ℚ := 0
  credit : ℚ := 0
  deriving Repr, DecidableEq

/-- Journal entry header with its owned lines
(`src/backend/app/models/journal_entry.py`; the `lines` relationship is
cascade-deleted with the entry, so lines are nested in the entry here). -/
structure JournalEntry where
  id : Nat
  entry_date : Int
  description : String
  reference : Option String := none
  entry_type : String
  transaction_id : Option Nat := none
  invoice_id : Option Nat := none
  bill_id : Option Nat := none
  is_posted : Bool := true
  notes : Option String := none
  lines : List JournalEntryLine := []
  deriving Repr, DecidableEq

/-- Transaction row, restricted to the columns the posting engine reads
(`src/backend/app/models/transaction.py`). -/
structure Transaction where
  id : Nat
  transaction_date : Int
  description : String
  amount : ℚ
  category : String
  subcategory : Option String := none
  tax_amount : Option ℚ := none
  payment_method : Option String := none
  deriving Repr, DecidableEq

/-- Invoice row, restricted to the columns the posting engine reads
(`src/backend/app/models/invoice.py`). -/
structure Invoice where
  id : Nat
  invoice_number : String
  invoice_date : Int
  subtotal : ℚ
  gst_amount : Option ℚ := none
  total : ℚ
  paid_date : Option Int := none
  deriving Repr, DecidableEq

/-- Bill line item (`src/backend/app/models/bill.py`). -/
structure BillItem where
  id : Nat
  description : Option String := none
  amount : ℚ
  account_id : Option Nat := none
  deriving Repr, DecidableEq

/-- Bill row, restricted to the columns the posting engine reads
(`src/backend/app/models/bill.py`). -/
structure Bill where
  id : Nat
  bill_number : String
  bill_date : Int
  subtotal : ℚ
  gst_amount : Option ℚ := none
  total : ℚ
  expense_account_id : Option Nat := none
  items : List BillItem := []
  deriving Repr, DecidableEq

/-- Bill payment row (`src/backend/app/models/bill.py`, `BillPayment`). -/
structure BillPayment where
  amount : ℚ
  payment_date : Int
  deriving Repr, DecidableEq

/-- The database state the ledger engine reads and writes: the `accounts`,
`journal_entries` (owning their lines) and `transactions` tables, plus the
autoincrement counter that assigns ids on `db.flush()`. -/
structure DB where
  accounts : List Account := []
  entries : List JournalEntry := []
  transactions : List Transaction := []
  nextEntryId : Nat := 1
  deriving Repr, DecidableEq

/-- Python truthiness of an optional integer foreign key
(`if item.account_id:` is false for both `None` and `0`). -/
def optTruthy (o : Option Nat) : Bool :=
  match o with
  | none => false
  | some n => n != 0

/-- Python `x or default` for an optional string (`None` and `""` are falsy). -/
def strOr (o : Option String) (d : String) : String :=
  match o with
  | none => d
  | some s => if s = "" then d else s

/-- Python `x or default` for an optional number (`None` and `0.0` are falsy). -/
def numOr (o : Option ℚ) (d : ℚ) : ℚ :=
  match o with
  | none => d
  | some x => if x = 0 then d else x

/-- `CATEGORY_ACCOUNT_MAP` from `src/backend/app/services/journal_service.py`:
the 19+ AI-detected expense subcategories mapped to CoA account codes. -/
def CATEGORY_ACCOUNT_MAP : List (String × String) :=
  [("advertising", "5000"),
   ("bad_debts", "5050"),
   ("bank_fees", "5100"),
   ("insurance", "5150"),
   ("meals_and_entertainment", "5200"),
   ("office_supplies", "5250"),
   ("professional_fees", "5300"),
   ("rent", "5350"),
   ("repairs_and_maintenance", "5400"),
   ("software_subscriptions", "5450"),
   ("telephone", "5500"),
   ("travel", "5550"),
   ("utilities", "5600"),
   ("vehicle_expenses", "5650"),
   ("contractor_payments", "5700"),
   ("employee_wages", "5750"),
   ("shipping", "5800"),
   ("taxes_and_licenses", "5850"),
   ("depreciation", "5900"),
   ("other", "5950"),
   ("business_use_of_home", "5960"),
   ("inventory", "6100"),
   ("cogs", "6000")]

/-- `PAYMENT_CREDIT_ACCOUNT` from `journal_service.py`: payment method →
credit account code. -/
def PAYMENT_CREDIT_ACCOUNT : List (String × String) :=
  [("cash", "1000"),
   ("credit_card", "2300"),
   ("debit", "1050"),
   ("bank_transfer", "1050"),
   ("cheque", "1050"),
   ("other", "1050")]

/-- Dict membership + access (`key in MAP` / `MAP[key]`). -/
def lookupMap (m : List (String × String)) (k : String) : Option String :=
  (m.find? (fun p => p.1 == k)).map (·.2)

/-- `_get_account_by_code` (`journal_service.py`): first account with the given
code that is active. -/
def get_account_by_code (db : DB) (code : String) : Option Account :=
  db.accounts.find? (fun a => a.code == code && a.is_active)

/-- Raw primary-key lookup `db.query(Account).filter(Account.id == x).first()`
(used by the bill rule for item/bill-level accounts; note: no active check). -/
def get_account_by_id (db : DB) (aid : Nat) : Option Account :=
  db.accounts.find? (fun a => a.id == aid)

/-- `_resolve_expense_account_code` (`journal_service.py`). -/
def resolve_expense_account_code (subcategory : Option String) : String :=
  match subcategory with
  | some s =>
    match lookupMap CATEGORY_ACCOUNT_MAP s with
    | some c => c
    | none => "5950"
  | none => "5950"

/-- `_resolve_credit_account_code` (`journal_service.py`). -/
def resolve_credit_account_code (payment_method : Option String) : String :=
  match payment_method with
  | some s =>
    match lookupMap PAYMENT_CREDIT_ACCOUNT s with
    | some c => c
    | none => "1050"
  | none => "1050"

/-- Σ debit over a line list. -/
def sum_debits (lines : List JournalEntryLine) : ℚ :=
  (lines.map (·.debit)).sum

/-- Σ credit over a line list. -/
def sum_credits (lines : List JournalEntryLine) : ℚ :=
  (lines.map (·.credit)).sum

/-- `validate_journal_entry_balance` (`journal_service.py`): total debits equal
total credits within 0.01. -/
def validate_journal_entry_balance (lines : List JournalEntryLine) : Bool :=
  decide (|sum_debits lines - sum_credits lines| < (1 : ℚ)/100)

/-- Python `round(x, 2)` on the exact value: round half to even at two
decimal places. -/
def round2 (q : ℚ) : ℚ :=
  let x := q * 100
  let n := ⌊x⌋
  let r := x - n
  if r < 1/2 then (n : ℚ) / 100
  else if 1/2 < r then ((n : ℚ) + 1) / 100
  else if n % 2 = 0 then (n : ℚ) / 100 else ((n : ℚ) + 1) / 100

/-- `db.add(je)` followed by the line inserts: append the entry (with its
lines) and advance the id counter assigned by `db.flush()`. -/
def add_entry (db : DB) (je : JournalEntry) : DB :=
  { db with entries := db.entries ++ [je], nextEntryId := db.nextEntryId + 1 }

/-- Candidate line set of `create_je_for_transaction` for `category ==
"expense"` (`journal_service.py` lines 94–115): debit the category-mapped
expense account for `abs(amount)`, debit GST receivable (1300) for the tax when
positive and the account resolves, credit the payment-mapped account for
net+tax.  `none` models the early `return None` on unresolved accounts. -/
def txn_expense_lines (db : DB) (txn : Transaction) : Option (List JournalEntryLine) :=
  let amount := |txn.amount|
  let tax_amount := txn.tax_amount.getD 0
  let expense_code := resolve_expense_account_code txn.subcategory
  let credit_code := resolve_credit_account_code txn.payment_method
  match get_account_by_code db expense_code, get_account_by_code db credit_code with
  | some expense_acct, some credit_acct =>
    let l1 : List JournalEntryLine :=
      [{ account_id := expense_acct.id, description := some txn.description,
         debit := amount, credit := 0 }]
    let l2 :=
      if 0 < tax_amount then
        match get_account_by_code db "1300" with
        | some gst_recv =>
          l1 ++ [{ account_id := gst_recv.id,
                   description := some ("GST on " ++ txn.description),
                   debit := tax_amount, credit := 0 }]
        | none => l1
      else l1
    some (l2 ++ [{ account_id := credit_acct.id, description := some txn.description,
                   debit := 0, credit := amount + tax_amount }])
  | _, _ => none

/-- Candidate line set of `create_je_for_transaction` for `category ==
"revenue"` (`journal_service.py` lines 117–136). -/
def txn_revenue_lines (db : DB) (txn : Transaction) : Option (List JournalEntryLine) :=
  let amount := |txn.amount|
  let tax_amount := txn.tax_amount.getD 0
  match get_account_by_code db "4000", get_account_by_code db "1050" with
  | some revenue_acct, some bank_acct =>
    let l1 : List JournalEntryLine :=
      [{ account_id := bank_acct.id, description := some txn.description,
         debit := amount + tax_amount, credit := 0 },
       { account_id := revenue_acct.id, description := some txn.description,
         debit := 0, credit := amount }]
    some (if 0 < tax_amount then
            match get_account_by_code db "2100" with
            | some gst_pay =>
              l1 ++ [{ account_id := gst_pay.id,
                       description := some ("GST on " ++ txn.description),
                       debit := 0, credit := tax_amount }]
            | none => l1
          else l1)
  | _, _ => none

/-- Candidate line set of `create_je_for_transaction`: dispatch on category;
other categories (asset, liability) are skipped. -/
def txn_candidate_lines (db : DB) (txn : Transaction) : Option (List JournalEntryLine) :=
  if txn.category = "expense" then txn_expense_lines db txn
  else if txn.category = "revenue" then txn_revenue_lines db txn
  else none

/-- `create_je_for_transaction` (`journal_service.py` lines 82–166): build the
candidate lines, reject on unresolved accounts or an unbalanced set (returning
`none` with the state untouched), otherwise persist the entry with its lines. -/
def create_je_for_transaction (db : DB) (txn : Transaction) : Option JournalEntry × DB :=
  match txn_candidate_lines db txn with
  | none => (none, db)
  | some lines =>
    if validate_journal_entry_balance lines then
      let je : JournalEntry :=
        { id := db.nextEntryId,
          entry_date := txn.transaction_date,
          description := txn.description,
          reference := some ("TXN-" ++ toString txn.id),
          entry_type := if txn.category = "expense" then "auto_expense" else "auto_revenue",
          transaction_id := some txn.id,
          is_posted := true,
          lines := lines }
      (some je, add_entry db je)
    else (none, db)

/-- Candidate line set of `create_je_for_invoice_sent`
(`journal_service.py` lines 180–204). -/
def invoice_sent_lines (db : DB) (invoice : Invoice) : Option (List JournalEntryLine) :=
  match get_account_by_code db "1100", get_account_by_code db "4000" with
  | some ar_acct, some revenue_acct =>
    let l1 : List JournalEntryLine :=
      [{ account_id := ar_acct.id,
         description := some ("Invoice " ++ invoice.invoice_number),
         debit := invoice.total, credit := 0 },
       { account_id := revenue_acct.id,
         description := some ("Invoice " ++ invoice.invoice_number),
         debit := 0, credit := invoice.subtotal }]
    some (if 0 < invoice.gst_amount.getD 0 then
            match get_account_by_code db "2100" with
            | some gst_pay =>
              l1 ++ [{ account_id := gst_pay.id,
                       description := some ("GST on " ++ invoice.invoice_number),
                       debit := 0, credit := invoice.gst_amount.getD 0 }]
            | none => l1
          else l1)
  | _, _ => none

/-- `create_je_for_invoice_sent` (`journal_service.py` lines 180–226). -/
def create_je_for_invoice_sent (db : DB) (invoice : Invoice) : Option JournalEntry × DB :=
  match invoice_sent_lines db invoice with
  | none => (none, db)
  | some lines =>
    if validate_journal_entry_balance lines then
      let je : JournalEntry :=
        { id := db.nextEntryId,
          entry_date := invoice.invoice_date,
          description := "Invoice " ++ invoice.invoice_number ++ " sent",
          reference := some invoice.invoice_number,
          entry_type := "auto_invoice",
          invoice_id := some invoice.id,
          is_posted := true,
          lines := lines }
      (some je, add_entry db je)
    else (none, db)

/-- Candidate line set of `create_je_for_invoice_paid` (`journal_service.py`
lines 231–243): debit bank, credit AR, for `amount or invoice.total`. -/
def invoice_paid_lines (db : DB) (invoice : Invoice) (amount : Option ℚ) :
    Option (List JournalEntryLine) :=
  match get_account_by_code db "1050", get_account_by_code db "1100" with
  | some bank_acct, some ar_acct =>
    let pay_amount := numOr amount invoice.total
    some [{ account_id := bank_acct.id,
            description := some ("Payment for " ++ invoice.invoice_number),
            debit := pay_amount, credit := 0 },
          { account_id := ar_acct.id,
            description := some ("Payment for " ++ invoice.invoice_number),
            debit := 0, credit := pay_amount }]
  | _, _ => none

/-- `create_je_for_invoice_paid` (`journal_service.py` lines 229–269).
`today` stands for `date.today()`, passed in explicitly. -/
def create_je_for_invoice_paid (db : DB) (invoice : Invoice) (amount : Option ℚ)
    (payment_date : Option Int) (today : Int) : Option JournalEntry × DB :=
  match invoice_paid_lines db invoice amount with
  | none => (none, db)
  | some lines =>
    let pay_date :=
      match payment_date with
      | some d => d
      | none => match invoice.paid_date with
        | some d => d
        | none => today
    if validate_journal_entry_balance lines then
      let je : JournalEntry :=
        { id := db.nextEntryId,
          entry_date := pay_date,
          description := "Payment received for " ++ invoice.invoice_number,
          reference := some invoice.invoice_number,
          entry_type := "auto_payment",
          invoice_id := some invoice.id,
          is_posted := true,
          lines := lines }
      (some je, add_entry db je)
    else (none, db)

/-- `create_manual_journal_entry` (`journal_service.py` lines 274–304): raises
(`Except.error`) on an unbalanced or empty line set, in that order, before any
write; otherwise persists the entry. -/
def create_manual_journal_entry (db : DB) (entry_date : Int) (description : String)
    (lines : List JournalEntryLine) (notes : Option String) :
    Except String (JournalEntry × DB) :=
  if !validate_journal_entry_balance lines then
    .error "Journal entry is not balanced: total debits must equal total credits"
  else if lines.isEmpty then
    .error "Journal entry must have at least one line"
  else
    let je : JournalEntry :=
      { id := db.nextEntryId,
        entry_date := entry_date,
        description := description,
        entry_type := "manual",
        is_posted := true,
        notes := notes,
        lines := lines }
    .ok (je, add_entry db je)

/-- Account resolution for one bill item (`journal_service.py` lines 350–356):
item-level id, else bill-level id, else code 5950.  The id lookups do not
check `is_active`; the code lookup does. -/
def bill_item_initial_account (db : DB) (bill : Bill) (item : BillItem) : Option Account :=
  if optTruthy item.account_id then get_account_by_id db (item.account_id.getD 0)
  else if optTruthy bill.expense_account_id then get_account_by_id db (bill.expense_account_id.getD 0)
  else get_account_by_code db "5950"

/-- Full account resolution for one bill item (`journal_service.py` lines
350–362): the item/bill/5950 chain, then one more fall back to 5950 when that
produced nothing. -/
def resolved_item_account (db : DB) (bill : Bill) (item : BillItem) : Option Account :=
  match bill_item_initial_account db bill item with
  | some a => some a
  | none => get_account_by_code db "5950"

/-- The per-item loop of `create_je_for_bill_received` (`journal_service.py`
lines 349–369): one debit line per item for `round(item.amount, 2)` against
the resolved account, falling back to 5950 when the first resolution fails and
aborting the whole rule (`none`) when 5950 is missing too. -/
def bill_item_lines (db : DB) (bill : Bill) : List BillItem → Option (List JournalEntryLine)
  | [] => some []
  | item :: rest =>
    match resolved_item_account db bill item with
    | none => none
    | some expense_acct =>
      match bill_item_lines db bill rest with
      | none => none
      | some ls =>
        some ({ account_id := expense_acct.id, description := item.description,
                debit := round2 item.amount, credit := 0 } :: ls)

/-- Candidate line set of `create_je_for_bill_received` (`journal_service.py`
lines 341–404): AP account required up front; per-item debit lines (or a
single subtotal line when the bill has no items); GST receivable debit when
`gst_amount > 0` and 1300 resolves; AP credit for the bill total. -/
def bill_received_candidate_lines (db : DB) (bill : Bill) : Option (List JournalEntryLine) :=
  match get_account_by_code db "2000" with
  | none => none
  | some ap_acct =>
    match bill_item_lines db bill bill.items with
    | none => none
    | some item_ls =>
      let base :=
        if item_ls.isEmpty then
          let expense_acct :=
            if optTruthy bill.expense_account_id then
              get_account_by_id db (bill.expense_account_id.getD 0)
            else get_account_by_code db "5950"
          match expense_acct with
          | none => none
          | some a =>
            some [({ account_id := a.id,
                     description := some ("Bill " ++ bill.bill_number),
                     debit := round2 bill.subtotal, credit := 0 } : JournalEntryLine)]
        else some item_ls
      match base with
      | none => none
      | some ls0 =>
        let ls1 :=
          if 0 < bill.gst_amount.getD 0 then
            match get_account_by_code db "1300" with
            | some gst_recv =>
              ls0 ++ [{ account_id := gst_recv.id,
                        description := some ("GST on " ++ bill.bill_number),
                        debit := round2 (bill.gst_amount.getD 0), credit := 0 }]
            | none => ls0
          else ls0
        some (ls1 ++ [{ account_id := ap_acct.id,
                        description := some ("Bill " ++ bill.bill_number),
                        debit := 0, credit := round2 bill.total }])

/-- `create_je_for_bill_received` (`journal_service.py` lines 335–430). -/
def create_je_for_bill_received (db : DB) (bill : Bill) : Option JournalEntry × DB :=
  match bill_received_candidate_lines db bill with
  | none => (none, db)
  | some lines =>
    if validate_journal_entry_balance lines then
      let je : JournalEntry :=
        { id := db.nextEntryId,
          entry_date := bill.bill_date,
          description := "Bill " ++ bill.bill_number ++ " received",
          reference := some bill.bill_number,
          entry_type := "auto_bill",
          bill_id := some bill.id,
          is_posted := true,
          lines := lines }
      (some je, add_entry db je)
    else (none, db)

/-- Candidate line set of `create_je_for_bill_payment` (`journal_service.py`
lines 435–446): debit AP, credit bank, for `round(payment.amount, 2)`. -/
def bill_payment_lines (db : DB) (bill : Bill) (payment : BillPayment) :
    Option (List JournalEntryLine) :=
  match get_account_by_code db "2000", get_account_by_code db "1050" with
  | some ap_acct, some bank_acct =>
    let pay_amount := round2 payment.amount
    some [{ account_id := ap_acct.id,
            description := some ("Payment for " ++ bill.bill_number),
            debit := pay_amount, credit := 0 },
          { account_id := bank_acct.id,
            description := some ("Payment for " ++ bill.bill_number),
            debit := 0, credit := pay_amount }]
  | _, _ => none

/-- `create_je_for_bill_payment` (`journal_service.py` lines 433–472). -/
def create_je_for_bill_payment (db : DB) (bill : Bill) (payment : BillPayment) :
    Option JournalEntry × DB :=
  match bill_payment_lines db bill payment with
  | none => (none, db)
  | some lines =>
    if validate_journal_entry_balance lines then
      let je : JournalEntry :=
        { id := db.nextEntryId,
          entry_date := payment.payment_date,
          description := "Payment for bill " ++ bill.bill_number,
          reference := some bill.bill_number,
          entry_type := "auto_bill_payment",
          bill_id := some bill.id,
          is_posted := true,
          lines := lines }
      (some je, add_entry db je)
    else (none, db)

/-- `delete_je_for_transaction` (`journal_service.py` lines 169–175): remove
every entry linked to the transaction, return the count removed. -/
def delete_je_for_transaction (db : DB) (txn_id : Nat) : Nat × DB :=
  let victims := db.entries.filter (fun e => e.transaction_id == some txn_id)
  (victims.length,
   { db with entries := db.entries.filter (fun e => !(e.transaction_id == some txn_id)) })

/-- `delete_journal_entry` route (`src/backend/app/api/journal_entries.py`
lines 154–165): 404 when the entry is missing, 400 (`ImmutableEntryError`)
when it is not manual — both leaving the state untouched — otherwise remove
the entry together with its cascade-owned lines.  The pair carries the HTTP
outcome (status, message) or success message, plus the resulting state. -/
def delete_journal_entry (db : DB) (entry_id : Nat) :
    Except (Nat × String) String × DB :=
  match db.entries.find? (fun e => e.id == entry_id) with
  | none => (.error (404, "Journal entry not found"), db)
  | some je =>
    if je.entry_type ≠ "manual" then
      (.error (400, "Only manual journal entries can be deleted"), db)
    else
      (.ok "Journal entry deleted",
       { db with entries := db.entries.eraseP (fun e => e.id == entry_id) })

/-- Transaction ids already linked to some journal entry
(`migrate_existing_transactions`, `journal_service.py` lines 312–315). -/
def linked_txn_ids (entries : List JournalEntry) : List Nat :=
  entries.filterMap (·.transaction_id)

/-- The loop of `migrate_existing_transactions` (`journal_service.py` lines
320–325): skip transactions already linked, otherwise attempt to post,
counting successes and threading the state. -/
def migrate_loop (existing : List Nat) : DB → List Transaction → Nat × DB
  | db, [] => (0, db)
  | db, txn :: rest =>
    if txn.id ∈ existing then migrate_loop existing db rest
    else
      match create_je_for_transaction db txn with
      | (some _, db1) =>
        let r := migrate_loop existing db1 rest
        (r.1 + 1, r.2)
      | (none, db1) => migrate_loop existing db1 rest

/-- `migrate_existing_transactions` (`journal_service.py` lines 309–330). -/
def migrate_existing_transactions (db : DB) : Nat × DB :=
  migrate_loop (linked_txn_ids db.entries) db db.transactions

/-- The line/entry join of the balance queries
(`src/backend/app/api/reports.py`): lines of posted entries with
`entry_date <= as_of`. -/
def posted_lines_at (db : DB) (as_of : Int) : List JournalEntryLine :=
  (db.entries.filter (fun e => e.is_posted && decide (e.entry_date ≤ as_of))).flatMap (·.lines)

/-- The line/entry join restricted to `entry_date ∈ [start, stop]`. -/
def posted_lines_in (db : DB) (start stop : Int) : List JournalEntryLine :=
  (db.entries.filter
    (fun e => e.is_posted && decide (start ≤ e.entry_date) && decide (e.entry_date ≤ stop))).flatMap
    (·.lines)

/-- `_account_balance_at` (`reports.py` lines 280–291): sum debit and credit
columns over the joined rows for the account, signed by the normal balance
of the account. -/
def account_balance_at (db : DB) (account_id : Nat) (as_of : Int)
    (normal_balance : String) : ℚ :=
  let mine := (posted_lines_at db as_of).filter (fun l => l.account_id == account_id)
  let d := sum_debits mine
  let c := sum_credits mine
  if normal_balance = "debit" then d - c else c - d

/-- `_account_balance_range` (`reports.py` lines 294–306). -/
def account_balance_range (db : DB) (account_id : Nat) (start stop : Int)
    (normal_balance : String) : ℚ :=
  let mine := (posted_lines_in db start stop).filter (fun l => l.account_id == account_id)
  let d := sum_debits mine
  let c := sum_credits mine
  if normal_balance = "debit" then d - c else c - d

/-- One row of the trial balance report. -/
structure TrialBalanceRow where
  code : String
  name : String
  account_type : String
  debit : ℚ
  credit : ℚ
  deriving Repr, DecidableEq

/-- The trial balance report.  The JSON route additionally rounds the two
totals with `round(., 2)` for display; `is_balanced` is computed from the
unrounded accumulated totals exactly as in the source. -/
structure TrialBalanceReport where
  rows : List TrialBalanceRow
  total_debit : ℚ
  total_credit : ℚ
  is_balanced : Bool
  deriving Repr, DecidableEq

/-- The per-account body of the `trial_balance` loop (`reports.py` lines
389–416): net = Σdebit − Σcredit over the posted lines of the account up to
the date; accounts with `|net| < 0.01` are skipped; positive net goes to the
debit column, negative to the credit column, rounded to 2 decimals. -/
def trial_balance_row (db : DB) (as_of : Int) (acct : Account) : Option TrialBalanceRow :=
  let mine := (posted_lines_at db as_of).filter (fun l => l.account_id == acct.id)
  let net := sum_debits mine - sum_credits mine
  if |net| < (1 : ℚ)/100 then none
  else
    some { code := acct.code, name := acct.name, account_type := acct.account_type,
           debit := if 0 < net then round2 net else 0,
           credit := if net < 0 then round2 |net| else 0 }

/-- `trial_balance` route (`reports.py` lines 377–426): all active accounts
ordered by code, one row per account with nonnegligible net, totals
accumulated over the emitted rows. -/
def trial_balance (db : DB) (as_of : Int) : TrialBalanceReport :=
  let accounts :=
    (db.accounts.filter (·.is_active)).mergeSort (fun a b => a.code ≤ b.code)
  let rows := accounts.filterMap (trial_balance_row db as_of)
  let total_debit := (rows.map (·.debit)).sum
  let total_credit := (rows.map (·.credit)).sum
  { rows := rows, total_debit := total_debit, total_credit := total_credit,
    is_balanced := decide (|total_debit - total_credit| < (1 : ℚ)/100) }

/-- `AccountCreate` request schema (`src/backend/app/api/accounts.py` lines
18–27).  Pydantic semantics for `normal_balance: Optional[str] = "debit"`: a
request that omits the field gets `some "debit"`; an explicit JSON `null`
gives `none`; an explicit string gives that string. -/
structure AccountCreate where
  code : String
  name : String
  account_type : String
  sub_type : Option String := none
  description : Option String := none
  parent_account_id : Option Nat := none
  tax_code : Option String := none
  normal_balance : Option String := some "debit"
  deriving Repr, DecidableEq

/-- `create_account` route (`accounts.py` lines 114–146).  `new_id` stands for
the autoincrement primary key assigned on insert. -/
def create_account (db : DB) (data : AccountCreate) (new_id : Nat) :
    Except (Nat × String) (Account × DB) :=
  if data.account_type ∉ (["asset", "liability", "equity", "revenue", "expense"] : List String) then
    .error (400, "Invalid account_type")
  else
    match db.accounts.find? (fun a => a.code == data.code) with
    | some _ => .error (400, "Account code " ++ data.code ++ " already exists")
    | none =>
      if optTruthy data.parent_account_id
          && (get_account_by_id db (data.parent_account_id.getD 0)).isNone then
        .error (400, "Parent account not found")
      else
        let account : Account :=
          { id := new_id,
            code := data.code,
            name := data.name,
            account_type := data.account_type,
            sub_type := data.sub_type,
            parent_account_id := data.parent_account_id,
            tax_code := data.tax_code,
            normal_balance := some (strOr data.normal_balance
              (if data.account_type ∈ (["liability", "equity", "revenue"] : List String)
               then "credit" else "debit")),
            is_system := false,
            is_active := true }
        .ok (account, { db with accounts := db.accounts ++ [account] })

/-- Builder for one seeded account (`seed_chart_of_accounts`,
`src/backend/app/services/coa_seed.py`: seeded accounts are system accounts,
active, with the listed normal balance). -/
def mkSeedAccount (id : Nat) (code name acct_type sub : String)
    (tax : Option String) (nb : String) : Account :=
  { id := id, code := code, name := name, account_type := acct_type,
    sub_type := some sub, tax_code := tax, normal_balance := some nb,
    is_system := true, is_active := true }

/-- `DEFAULT_ACCOUNTS` (`coa_seed.py`) as the account table produced by
seeding an empty database, with ids assigned in list order.  Apostrophes in
two display names are elided; no claim inspects those names. -/
def default_accounts : List Account :=
  [mkSeedAccount 1 "1000" "Cash" "asset" "current_asset" none "debit",
   mkSeedAccount 2 "1050" "Business Bank Account" "asset" "current_asset" none "debit",
   mkSeedAccount 3 "1100" "Accounts Receivable" "asset" "current_asset" none "debit",
   mkSeedAccount 4 "1200" "Prepaid Expenses" "asset" "current_asset" none "debit",
   mkSeedAccount 5 "1300" "GST/HST Receivable" "asset" "current_asset" none "debit",
   mkSeedAccount 6 "1500" "Computer Equipment" "asset" "fixed_asset" none "debit",
   mkSeedAccount 7 "1510" "Office Equipment" "asset" "fixed_asset" none "debit",
   mkSeedAccount 8 "1520" "Accum. Depreciation - Equipment" "asset" "fixed_asset" none "credit",
   mkSeedAccount 9 "1600" "Vehicles" "asset" "fixed_asset" none "debit",
   mkSeedAccount 10 "1610" "Accum. Depreciation - Vehicles" "asset" "fixed_asset" none "credit",
   mkSeedAccount 11 "2000" "Accounts Payable" "liability" "current_liability" none "credit",
   mkSeedAccount 12 "2100" "GST/HST Payable" "liability" "current_liability" none "credit",
   mkSeedAccount 13 "2200" "Income Tax Payable" "liability" "current_liability" none "credit",
   mkSeedAccount 14 "2300" "Credit Card Payable" "liability" "current_liability" none "credit",
   mkSeedAccount 15 "3000" "Owners Equity" "equity" "equity" none "credit",
   mkSeedAccount 16 "3100" "Owners Draws" "equity" "equity" none "debit",
   mkSeedAccount 17 "3200" "Retained Earnings" "equity" "equity" none "credit",
   mkSeedAccount 18 "4000" "Service Revenue" "revenue" "revenue" none "credit",
   mkSeedAccount 19 "4100" "Product Sales" "revenue" "revenue" none "credit",
   mkSeedAccount 20 "4200" "Other Income" "revenue" "revenue" none "credit",
   mkSeedAccount 21 "5000" "Advertising & Marketing" "expense" "expense" (some "8521") "debit",
   mkSeedAccount 22 "5050" "Bad Debts" "expense" "expense" (some "8590") "debit",
   mkSeedAccount 23 "5100" "Bank Fees & Interest" "expense" "expense" (some "8710") "debit",
   mkSeedAccount 24 "5150" "Insurance" "expense" "expense" (some "8690") "debit",
   mkSeedAccount 25 "5200" "Meals & Entertainment" "expense" "expense" (some "8523") "debit",
   mkSeedAccount 26 "5250" "Office Supplies" "expense" "expense" (some "8810") "debit",
   mkSeedAccount 27 "5300" "Professional Fees" "expense" "expense" (some "8860") "debit",
   mkSeedAccount 28 "5350" "Rent" "expense" "expense" (some "8910") "debit",
   mkSeedAccount 29 "5400" "Repairs & Maintenance" "expense" "expense" (some "8960") "debit",
   mkSeedAccount 30 "5450" "Software & Subscriptions" "expense" "expense" (some "8810") "debit",
   mkSeedAccount 31 "5500" "Telephone & Internet" "expense" "expense" (some "8220") "debit",
   mkSeedAccount 32 "5550" "Travel" "expense" "expense" (some "9200") "debit",
   mkSeedAccount 33 "5600" "Utilities" "expense" "expense" (some "9220") "debit",
   mkSeedAccount 34 "5650" "Vehicle Expenses" "expense" "expense" (some "9281") "debit",
   mkSeedAccount 35 "5700" "Contractor Payments" "expense" "expense" (some "8810") "debit",
   mkSeedAccount 36 "5750" "Employee Wages" "expense" "expense" (some "9060") "debit",
   mkSeedAccount 37 "5800" "Shipping" "expense" "expense" (some "8810") "debit",
   mkSeedAccount 38 "5850" "Taxes & Licenses" "expense" "expense" (some "8760") "debit",
   mkSeedAccount 39 "5900" "Depreciation" "expense" "expense" (some "9936") "debit",
   mkSeedAccount 40 "5950" "Other Expenses" "expense" "expense" (some "9270") "debit",
   mkSeedAccount 41 "5960" "Business-Use-of-Home" "expense" "expense" (some "9945") "debit",
   mkSeedAccount 42 "6000" "Cost of Goods Sold" "expense" "cogs" none "debit",
   mkSeedAccount 43 "6100" "Inventory Purchases" "expense" "cogs" none "debit"]

/-- A fresh database holding exactly the seeded default chart of accounts. -/
def seeded_db : DB :=
  { accounts := default_accounts, entries := [], transactions := [], nextEntryId := 1 }

instance : Inhabited Account :=
  ⟨{ id := 0, code := "", name := "", account_type := "" }⟩

/-- The balance invariant for one entry: Σdebit == Σcredit within 0.01. -/
def entry_balanced (e : JournalEntry) : Prop :=
  |sum_debits e.lines - sum_credits e.lines| < (1 : ℚ)/100

/-- An empty database (no accounts, so every code lookup fails). -/
def empty_db : DB := {}

/-- The concrete expense of the spec example: 100.00 with 5.00 GST, category
`office_supplies`, paid `cash`. -/
def txn100 : Transaction :=
  { id := 7, transaction_date := 10, description := "stationery", amount := 100,
    category := "expense", subcategory := some "office_supplies",
    tax_amount := some 5, payment_method := some "cash" }

/-- The entry `create_je_for_transaction` produces for `txn100` on the seeded
chart (account 26 = 5250 Office Supplies, 5 = 1300 GST/HST Receivable,
1 = 1000 Cash). -/
def je100 : JournalEntry :=
  { id := 1, entry_date := 10, description := "stationery", reference := some "TXN-7",
    entry_type := "auto_expense", transaction_id := some 7, is_posted := true,
    lines :=
      [{ account_id := 26, description := some "stationery", debit := 100, credit := 0 },
       { account_id := 5, description := some "GST on stationery", debit := 5, credit := 0 },
       { account_id := 1, description := some "stationery", debit := 0, credit := 105 }] }

/-- A concrete invoice: subtotal 100, GST 5, total 105. -/
def inv1 : Invoice :=
  { id := 2, invoice_number := "INV-1", invoice_date := 3, subtotal := 100,
    gst_amount := some 5, total := 105 }

/-- The entry posted for `inv1` being sent on the seeded chart
(3 = 1100 AR, 18 = 4000 Service Revenue, 12 = 2100 GST/HST Payable). -/
def jeInvSent : JournalEntry :=
  { id := 1, entry_date := 3, description := "Invoice INV-1 sent", reference := some "INV-1",
    entry_type := "auto_invoice", invoice_id := some 2, is_posted := true,
    lines :=
      [{ account_id := 3, description := some "Invoice INV-1", debit := 105, credit := 0 },
       { account_id := 18, description := some "Invoice INV-1", debit := 0, credit := 100 },
       { account_id := 12, description := some "GST on INV-1", debit := 0, credit := 5 }] }

/-- The entry posted for `inv1` being paid in full on the seeded chart
(2 = 1050 Business Bank Account, 3 = 1100 AR). -/
def jeInvPaid : JournalEntry :=
  { id := 1, entry_date := 0, description := "Payment received for INV-1",
    reference := some "INV-1", entry_type := "auto_payment", invoice_id := some 2,
    is_posted := true,
    lines :=
      [{ account_id := 2, description := some "Payment for INV-1", debit := 105, credit := 0 },
       { account_id := 3, description := some "Payment for INV-1", debit := 0, credit := 105 }] }

/-- The concrete bill of the spec example: items A 60.00 (account 21) and
B 40.00 (account 23), GST 5.00, total 105.00. -/
def exBill : Bill :=
  { id := 3, bill_number := "B-9", bill_date := 5, subtotal := 100,
    gst_amount := some 5, total := 105, expense_account_id := none,
    items := [{ id := 1, description := some "A", amount := 60, account_id := some 21 },
              { id := 2, description := some "B", amount := 40, account_id := some 23 }] }

/-- The entry posted for `exBill` being received on the seeded chart
(5 = 1300 GST/HST Receivable, 11 = 2000 Accounts Payable). -/
def jeBill : JournalEntry :=
  { id := 1, entry_date := 5, description := "Bill B-9 received", reference := some "B-9",
    entry_type := "auto_bill", bill_id := some 3, is_posted := true,
    lines :=
      [{ account_id := 21, description := some "A", debit := 60, credit := 0 },
       { account_id := 23, description := some "B", debit := 40, credit := 0 },
       { account_id := 5, description := some "GST on B-9", debit := 5, credit := 0 },
       { account_id := 11, description := some "Bill B-9", debit := 0, credit := 105 }] }

/-- A concrete bill payment of 50.00. -/
def exPayment : BillPayment := { amount := 50, payment_date := 7 }

/-- The entry posted for `exPayment` on `exBill` on the seeded chart. -/
def jeBillPay : JournalEntry :=
  { id := 1, entry_date := 7, description := "Payment for bill B-9", reference := some "B-9",
    entry_type := "auto_bill_payment", bill_id := some 3, is_posted := true,
    lines :=
      [{ account_id := 11, description := some "Payment for B-9", debit := 50, credit := 0 },
       { account_id := 2, description := some "Payment for B-9", debit := 0, credit := 50 }] }

/-- A balanced manual line set. -/
def manualLines : List JournalEntryLine :=
  [{ account_id := 1, debit := 5, credit := 0 },
   { account_id := 2, debit := 0, credit := 5 }]

/-- An unbalanced manual line set. -/
def badLines : List JournalEntryLine :=
  [{ account_id := 1, debit := 5, credit := 0 }]

/-- The manual entry created from `manualLines`. -/
def jeManual : JournalEntry :=
  { id := 1, entry_date := 0, description := "adjust", entry_type := "manual",
    is_posted := true, lines := manualLines }

/-- Modelled from the claim wording for `balance_at`: the signed sum
(Σdebit − Σcredit, or Σcredit − Σdebit for credit-normal accounts) over the
account lines of posted entries with `entry_date ≤ as_of`. -/
def claimed_balance_at (db : DB) (aid : Nat) (as_of : Int) (nb : String) : ℚ :=
  let s := ((db.entries.filter fun e => e.is_posted && decide (e.entry_date ≤ as_of)).map fun e =>
      ((e.lines.filter fun l => l.account_id == aid).map fun l => l.debit - l.credit).sum).sum
  if nb = "debit" then s else -s

/-- Modelled from the claim wording for `balance_in_range`: the same signed
sum restricted to `entry_date ∈ [start, stop]`. -/
def claimed_balance_range (db : DB) (aid : Nat) (start stop : Int) (nb : String) : ℚ :=
  let s := ((db.entries.filter fun e =>
        e.is_posted && decide (start ≤ e.entry_date) && decide (e.entry_date ≤ stop)).map fun e =>
      ((e.lines.filter fun l => l.account_id == aid).map fun l => l.debit - l.credit).sum).sum
  if nb = "debit" then s else -s

/-- An unposted (draft) entry. -/
def draft_entry : JournalEntry :=
  { id := 9, entry_date := 0, description := "draft", entry_type := "manual",
    is_posted := false,
    lines := [{ account_id := 1, debit := 7, credit := 0 }] }

/-- A one-entry ledger used by the balance-engine witness. -/
def one_entry_db : DB :=
  { accounts := default_accounts, entries := [jeManual], transactions := [], nextEntryId := 2 }

/-- A liability-account creation request with the `normal_balance` field
omitted (pydantic then supplies the schema default `"debit"`). -/
def liabilityReq : AccountCreate :=
  { code := "2500", name := "Loan", account_type := "liability" }

/-- The same request with an explicit JSON `null` normal_balance. -/
def liabilityReqNull : AccountCreate :=
  { code := "2500", name := "Loan", account_type := "liability", normal_balance := none }

/-- What the route stores for `liabilityReq`. -/
def acct_omitted : Account :=
  { id := 1, code := "2500", name := "Loan", account_type := "liability",
    normal_balance := some "debit" }

/-- What the route stores for `liabilityReqNull`. -/
def acct_null : Account :=
  { id := 1, code := "2500", name := "Loan", account_type := "liability",
    normal_balance := some "credit" }

/-- The signed (debit-normal) net a list of entries contributes to one
account up to a date. -/
def net_of_entries (entries : List JournalEntry) (aid : Nat) (as_of : Int) : ℚ :=
  (((entries.filter fun e => e.is_posted && decide (e.entry_date ≤ as_of)).flatMap
      (·.lines)).filter (fun l => l.account_id == aid) |>.map fun l => l.debit - l.credit).sum

/-- A second, automatically generated entry (distinct id). -/
def jeAuto2 : JournalEntry := { je100 with id := 2 }

/-- A ledger with one manual and one auto entry. -/
def mixed_db : DB :=
  { accounts := default_accounts, entries := [jeManual, jeAuto2],
    transactions := [], nextEntryId := 3 }

/-- The line set claim C5 asserts for a bill with items: one debit per item
against its resolved expense account for `round(amount, 2)`, a GST receivable
debit when `gst_amount > 0`, and an AP credit for `round(total, 2)`. -/
def bill_expected_lines (db : DB) (bill : Bill) (ga ap : Account) : List JournalEntryLine :=
  (bill.items.map fun it =>
    { account_id := ((resolved_item_account db bill it).getD default).id,
      description := it.description, debit := round2 it.amount, credit := 0 }) ++
  (if 0 < bill.gst_amount.getD 0 then
     [{ account_id := ga.id, description := some ("GST on " ++ bill.bill_number),
        debit := round2 (bill.gst_amount.getD 0), credit := 0 }]
   else []) ++
  [{ account_id := ap.id, description := some ("Bill " ++ bill.bill_number),
     debit := 0, credit := round2 bill.total }]

/-- An inactive expense account (id 7). -/
def inactive_acct : Account :=
  { id := 7, code := "5123", name := "Legacy Expense", account_type := "expense",
    is_active := false, normal_balance := some "debit" }

/-- A chart holding active AP plus the inactive account 7. -/
def c6_db : DB :=
  { accounts :=
      [mkSeedAccount 11 "2000" "Accounts Payable" "liability" "current_liability" none "credit",
       inactive_acct],
    entries := [], transactions := [], nextEntryId := 1 }

/-- A bill whose only item names the inactive account 7. -/
def c6_bill : Bill :=
  { id := 4, bill_number := "B-77", bill_date := 1, subtotal := 100,
    gst_amount := none, total := 100, expense_account_id := none,
    items := [{ id := 1, description := some "legacy", amount := 100, account_id := some 7 }] }

/-- The entry the bill rule actually posts against the inactive account. -/
def c6_entry : JournalEntry :=
  { id := 1, entry_date := 1, description := "Bill B-77 received", reference := some "B-77",
    entry_type := "auto_bill", bill_id := some 4, is_posted := true,
    lines :=
      [{ account_id := 7, description := some "legacy", debit := 100, credit := 0 },
       { account_id := 11, description := some "Bill B-77", debit := 0, credit := 100 }] }

/-- A chart holding only AP. -/
def ap_only_db : DB :=
  { accounts :=
      [mkSeedAccount 11 "2000" "Accounts Payable" "liability" "current_liability" none "credit"],
    entries := [], transactions := [], nextEntryId := 1 }

/-- A bill whose only item names a nonexistent account id, with no bill-level
default and no 5950 in the chart. -/
def bill99 : Bill :=
  { id := 5, bill_number := "B-99", bill_date := 1, subtotal := 10,
    gst_amount := none, total := 10, expense_account_id := none,
    items := [{ id := 1, description := some "ghost", amount := 10, account_id := some 99 }] }

/-- A revenue transaction. -/
def txnRev : Transaction :=
  { id := 8, transaction_date := 11, description := "consulting", amount := 200,
    category := "revenue", tax_amount := some 10, payment_method := none }

/-- A rational that is a whole number of cents. -/
def Cent (q : ℚ) : Prop := ∃ k : ℤ, q = k / 100

/-- Net (Σdebit − Σcredit) of one account over posted lines up to a date —
the quantity the trial balance splits into its two columns. -/
def account_net (db : DB) (as_of : Int) (aid : Nat) : ℚ :=
  (((posted_lines_at db as_of).filter (fun l => l.account_id == aid)).map
    fun l => l.debit - l.credit).sum

/-- An active bank account (id 1). -/
def c2_bank : Account :=
  { id := 1, code := "1050", name := "Bank", account_type := "asset",
    normal_balance := some "debit" }

/-- An active revenue account (id 2). -/
def c2_rev : Account :=
  { id := 2, code := "4000", name := "Revenue", account_type := "revenue",
    normal_balance := some "credit" }

/-- A posted entry that balances exactly: debit account 1 / credit account 2,
100.00 each. -/
def c2_entry : JournalEntry :=
  { id := 1, entry_date := 0, description := "sale", entry_type := "manual",
    is_posted := true,
    lines := [{ account_id := 1, debit := 100, credit := 0 },
              { account_id := 2, debit := 0, credit := 100 }] }

/-- Ledger for the counterexample: the credited account is inactive. -/
def c2x_db : DB :=
  { accounts := [c2_bank, { c2_rev with is_active := false }],
    entries := [c2_entry], transactions := [], nextEntryId := 2 }

/-- Ledger for the witness: both accounts active. -/
def c2w_db : DB :=
  { accounts := [c2_bank, c2_rev],
    entries := [c2_entry], transactions := [], nextEntryId := 2 }

/-- Number of journal entries linked to one transaction id. -/
def count_linked (db : DB) (tid : Nat) : Nat :=
  (db.entries.filter (fun e => e.transaction_id == some tid)).length

/-- Transactions for which one migration pass will create an entry: not yet
linked and posting succeeds (posting success depends only on the chart). -/
def migrate_creates (db0 : DB) (ex : List Nat) (ts : List Transaction) (tid : Nat) : Nat :=
  ts.countP (fun u => u.id == tid && !(decide (u.id ∈ ex))
    && (create_je_for_transaction db0 u).1.isSome)

/-- A transaction that already has a linked entry. -/
def txn5 : Transaction :=
  { id := 5, transaction_date := 2, description := "old buy", amount := 20,
    category := "expense", subcategory := some "rent",
    tax_amount := none, payment_method := some "cash" }

/-- Migration fixture: seeded chart, transaction 5 already linked, transaction
7 (`txn100`) not yet. -/
def mig_db : DB :=
  { accounts := default_accounts,
    entries := [{ id := 1, entry_date := 2, description := "old buy",
                  entry_type := "auto_expense", transaction_id := some 5,
                  is_posted := true,
                  lines := [{ account_id := 28, debit := 20, credit := 0 },
                            { account_id := 1, debit := 0, credit := 20 }] }],
    transactions := [txn100, txn5],
    nextEntryId := 2 }

lemma validate_iff (lines : List JournalEntryLine) :
    validate_journal_entry_balance lines = true ↔
      |sum_debits lines - sum_credits lines| < (1 : ℚ)/100 := by
  simp [validate_journal_entry_balance]

lemma add_entry_entries (db : DB) (je : JournalEntry) :
    (add_entry db je).entries = db.entries ++ [je] := rfl

/-- Successful transaction posting: the balance check passed on the persisted
lines, the state is the old one plus the entry, and the entry is linked to the
transaction and posted. -/
lemma create_txn_eq_some {db : DB} {txn : Transaction} {je : JournalEntry} {db1 : DB}
    (h : create_je_for_transaction db txn = (some je, db1)) :
    validate_journal_entry_balance je.lines = true ∧ db1 = add_entry db je ∧
      je.transaction_id = some txn.id ∧ je.is_posted = true ∧ je.id = db.nextEntryId := by
  unfold create_je_for_transaction at h
  cases hc : txn_candidate_lines db txn <;> rw [hc] at h
  · simp at h
  · rename_i lines
    cases hv : validate_journal_entry_balance lines <;> simp [hv] at h
    obtain ⟨hje, hdb⟩ := h
    subst hje
    exact ⟨hv, hdb.symm, rfl, rfl, rfl⟩

/-- Rejected transaction posting leaves the state untouched. -/
lemma create_txn_eq_none {db : DB} {txn : Transaction} {db1 : DB}
    (h : create_je_for_transaction db txn = (none, db1)) : db1 = db := by
  unfold create_je_for_transaction at h
  cases hc : txn_candidate_lines db txn <;> rw [hc] at h
  · exact (Prod.mk.injEq .. ▸ h).2.symm
  · rename_i lines
    cases hv : validate_journal_entry_balance lines <;> simp [hv] at h
    exact h.symm

/-- Successful invoice-sent posting. -/
lemma create_invoice_sent_eq_some {db : DB} {invoice : Invoice} {je : JournalEntry} {db1 : DB}
    (h : create_je_for_invoice_sent db invoice = (some je, db1)) :
    validate_journal_entry_balance je.lines = true ∧ db1 = add_entry db je := by
  unfold create_je_for_invoice_sent at h
  cases hc : invoice_sent_lines db invoice <;> rw [hc] at h
  · simp at h
  · rename_i lines
    cases hv : validate_journal_entry_balance lines <;> simp [hv] at h
    obtain ⟨hje, hdb⟩ := h
    subst hje
    exact ⟨hv, hdb.symm⟩

/-- Rejected invoice-sent posting leaves the state untouched. -/
lemma create_invoice_sent_eq_none {db : DB} {invoice : Invoice} {db1 : DB}
    (h : create_je_for_invoice_sent db invoice = (none, db1)) : db1 = db := by
  unfold create_je_for_invoice_sent at h
  cases hc : invoice_sent_lines db invoice <;> rw [hc] at h
  · exact (Prod.mk.injEq .. ▸ h).2.symm
  · rename_i lines
    cases hv : validate_journal_entry_balance lines <;> simp [hv] at h
    exact h.symm

/-- Successful invoice-payment posting. -/
lemma create_invoice_paid_eq_some {db : DB} {invoice : Invoice} {amount : Option ℚ}
    {payment_date : Option Int} {today : Int} {je : JournalEntry} {db1 : DB}
    (h : create_je_for_invoice_paid db invoice amount payment_date today = (some je, db1)) :
    validate_journal_entry_balance je.lines = true ∧ db1 = add_entry db je := by
  unfold create_je_for_invoice_paid at h
  cases hc : invoice_paid_lines db invoice amount <;> rw [hc] at h
  · simp at h
  · rename_i lines
    cases hv : validate_journal_entry_balance lines <;> simp [hv] at h
    obtain ⟨hje, hdb⟩ := h
    subst hje
    exact ⟨hv, hdb.symm⟩

/-- Rejected invoice-payment posting leaves the state untouched. -/
lemma create_invoice_paid_eq_none {db : DB} {invoice : Invoice} {amount : Option ℚ}
    {payment_date : Option Int} {today : Int} {db1 : DB}
    (h : create_je_for_invoice_paid db invoice amount payment_date today = (none, db1)) :
    db1 = db := by
  unfold create_je_for_invoice_paid at h
  cases hc : invoice_paid_lines db invoice amount <;> rw [hc] at h
  · exact (Prod.mk.injEq .. ▸ h).2.symm
  · rename_i lines
    cases hv : validate_journal_entry_balance lines <;> simp [hv] at h
    exact h.symm

/-- Successful bill-received posting. -/
lemma create_bill_received_eq_some {db : DB} {bill : Bill} {je : JournalEntry} {db1 : DB}
    (h : create_je_for_bill_received db bill = (some je, db1)) :
    validate_journal_entry_balance je.lines = true ∧ db1 = add_entry db je := by
  unfold create_je_for_bill_received at h
  cases hc : bill_received_candidate_lines db bill <;> rw [hc] at h
  · simp at h
  · rename_i lines
    cases hv : validate_journal_entry_balance lines <;> simp [hv] at h
    obtain ⟨hje, hdb⟩ := h
    subst hje
    exact ⟨hv, hdb.symm⟩

/-- Rejected bill-received posting leaves the state untouched. -/
lemma create_bill_received_eq_none {db : DB} {bill : Bill} {db1 : DB}
    (h : create_je_for_bill_received db bill = (none, db1)) : db1 = db := by
  unfold create_je_for_bill_received at h
  cases hc : bill_received_candidate_lines db bill <;> rw [hc] at h
  · exact (Prod.mk.injEq .. ▸ h).2.symm
  · rename_i lines
    cases hv : validate_journal_entry_balance lines <;> simp [hv] at h
    exact h.symm

/-- Successful bill-payment posting. -/
lemma create_bill_payment_eq_some {db : DB} {bill : Bill} {payment : BillPayment}
    {je : JournalEntry} {db1 : DB}
    (h : create_je_for_bill_payment db bill payment = (some je, db1)) :
    validate_journal_entry_balance je.lines = true ∧ db1 = add_entry db je := by
  unfold create_je_for_bill_payment at h
  cases hc : bill_payment_lines db bill payment <;> rw [hc] at h
  · simp at h
  · rename_i lines
    cases hv : validate_journal_entry_balance lines <;> simp [hv] at h
    obtain ⟨hje, hdb⟩ := h
    subst hje
    exact ⟨hv, hdb.symm⟩

/-- Rejected bill-payment posting leaves the state untouched. -/
lemma create_bill_payment_eq_none {db : DB} {bill : Bill} {payment : BillPayment} {db1 : DB}
    (h : create_je_for_bill_payment db bill payment = (none, db1)) : db1 = db := by
  unfold create_je_for_bill_payment at h
  cases hc : bill_payment_lines db bill payment <;> rw [hc] at h
  · exact (Prod.mk.injEq .. ▸ h).2.symm
  · rename_i lines
    cases hv : validate_journal_entry_balance lines <;> simp [hv] at h
    exact h.symm

/-- Successful manual posting. -/
lemma create_manual_eq_ok {db : DB} {d : Int} {desc : String} {lines : List JournalEntryLine}
    {notes : Option String} {je : JournalEntry} {db1 : DB}
    (h : create_manual_journal_entry db d desc lines notes = .ok (je, db1)) :
    validate_journal_entry_balance je.lines = true ∧ db1 = add_entry db je := by
  unfold create_manual_journal_entry at h
  split at h
  · simp at h
  · split at h
    · simp at h
    · rename_i hnv _
      simp only [Except.ok.injEq, Prod.mk.injEq] at h
      obtain ⟨hje, hdb⟩ := h
      subst hje
      refine ⟨?_, hdb.symm⟩
      simpa using hnv

/-- An unbalanced manual candidate raises before any write. -/
lemma create_manual_unbalanced {db : DB} {d : Int} {desc : String}
    {lines : List JournalEntryLine} {notes : Option String}
    (hv : validate_journal_entry_balance lines = false) :
    create_manual_journal_entry db d desc lines notes =
      .error "Journal entry is not balanced: total debits must equal total credits" := by
  unfold create_manual_journal_entry
  simp [hv]

/-- Claim C10: the transaction posting rule is invariant under the sign of the
amount: a transaction and its amount-negated copy produce the identical
result (identical line set, entry and state), because every use of the amount
goes through `abs`. -/
theorem claim_sign_invariance (db : DB) (txn : Transaction) :
    create_je_for_transaction db { txn with amount := -txn.amount } =
      create_je_for_transaction db txn := by
  simp only [create_je_for_transaction, txn_candidate_lines, txn_expense_lines,
    txn_revenue_lines, abs_neg]

/-- Claim C1: every journal entry persisted by any posting route (manual API
entry, transaction, invoice sent, invoice payment, bill received, bill
payment) satisfies |Σdebit − Σcredit| < 0.01; a candidate line set violating
this is rejected before any write (the manual path raises, the auto paths
return `none`) and the ledger state is unchanged, while a successful post
appends exactly the new balanced entry. -/
theorem claim_posting_routes_balanced :
    (∀ db txn je db1, create_je_for_transaction db txn = (some je, db1) →
        entry_balanced je ∧ db1.entries = db.entries ++ [je]) ∧
    (∀ db txn db1, create_je_for_transaction db txn = (none, db1) → db1 = db) ∧
    (∀ db invoice je db1, create_je_for_invoice_sent db invoice = (some je, db1) →
        entry_balanced je ∧ db1.entries = db.entries ++ [je]) ∧
    (∀ db invoice db1, create_je_for_invoice_sent db invoice = (none, db1) → db1 = db) ∧
    (∀ db invoice amount pd today je db1,
        create_je_for_invoice_paid db invoice amount pd today = (some je, db1) →
        entry_balanced je ∧ db1.entries = db.entries ++ [je]) ∧
    (∀ db invoice amount pd today db1,
        create_je_for_invoice_paid db invoice amount pd today = (none, db1) → db1 = db) ∧
    (∀ db bill je db1, create_je_for_bill_received db bill = (some je, db1) →
        entry_balanced je ∧ db1.entries = db.entries ++ [je]) ∧
    (∀ db bill db1, create_je_for_bill_received db bill = (none, db1) → db1 = db) ∧
    (∀ db bill payment je db1, create_je_for_bill_payment db bill payment = (some je, db1) →
        entry_balanced je ∧ db1.entries = db.entries ++ [je]) ∧
    (∀ db bill payment db1, create_je_for_bill_payment db bill payment = (none, db1) → db1 = db) ∧
    (∀ db d desc lines notes, validate_journal_entry_balance lines = false →
        create_manual_journal_entry db d desc lines notes =
          .error "Journal entry is not balanced: total debits must equal total credits") ∧
    (∀ db d desc lines notes je db1,
        create_manual_journal_entry db d desc lines notes = .ok (je, db1) →
        entry_balanced je ∧ db1.entries = db.entries ++ [je]) := by
  refine ⟨?_, ?_, ?_, ?_, ?_, ?_, ?_, ?_, ?_, ?_, ?_, ?_⟩
  · intro db txn je db1 h
    obtain ⟨hv, hdb, -⟩ := create_txn_eq_some h
    exact ⟨(validate_iff je.lines).mp hv, by rw [hdb, add_entry_entries]⟩
  · intro db txn db1 h
    exact create_txn_eq_none h
  · intro db invoice je db1 h
    obtain ⟨hv, hdb⟩ := create_invoice_sent_eq_some h
    exact ⟨(validate_iff je.lines).mp hv, by rw [hdb, add_entry_entries]⟩
  · intro db invoice db1 h
    exact create_invoice_sent_eq_none h
  · intro db invoice amount pd today je db1 h
    obtain ⟨hv, hdb⟩ := create_invoice_paid_eq_some h
    exact ⟨(validate_iff je.lines).mp hv, by rw [hdb, add_entry_entries]⟩
  · intro db invoice amount pd today db1 h
    exact create_invoice_paid_eq_none h
  · intro db bill je db1 h
    obtain ⟨hv, hdb⟩ := create_bill_received_eq_some h
    exact ⟨(validate_iff je.lines).mp hv, by rw [hdb, add_entry_entries]⟩
  · intro db bill db1 h
    exact create_bill_received_eq_none h
  · intro db bill payment je db1 h
    obtain ⟨hv, hdb⟩ := create_bill_payment_eq_some h
    exact ⟨(validate_iff je.lines).mp hv, by rw [hdb, add_entry_entries]⟩
  · intro db bill payment db1 h
    exact create_bill_payment_eq_none h
  · intro db d desc lines notes hv
    exact create_manual_unbalanced hv
  · intro db d desc lines notes je db1 h
    obtain ⟨hv, hdb⟩ := create_manual_eq_ok h
    exact ⟨(validate_iff je.lines).mp hv, by rw [hdb, add_entry_entries]⟩

/-- Witness for C1: each conjunct of the claim applied at a concrete input
with its hypotheses discharged by evaluation. -/
theorem claim_posting_routes_balanced_witness :
    (entry_balanced je100 ∧ (add_entry seeded_db je100).entries = seeded_db.entries ++ [je100]) ∧
    (empty_db = empty_db) ∧
    (entry_balanced jeInvSent ∧
      (add_entry seeded_db jeInvSent).entries = seeded_db.entries ++ [jeInvSent]) ∧
    (entry_balanced jeInvPaid ∧
      (add_entry seeded_db jeInvPaid).entries = seeded_db.entries ++ [jeInvPaid]) ∧
    (entry_balanced jeBill ∧ (add_entry seeded_db jeBill).entries = seeded_db.entries ++ [jeBill]) ∧
    (entry_balanced jeBillPay ∧
      (add_entry seeded_db jeBillPay).entries = seeded_db.entries ++ [jeBillPay]) ∧
    (create_manual_journal_entry empty_db 0 "oops" badLines none =
      .error "Journal entry is not balanced: total debits must equal total credits") ∧
    (entry_balanced jeManual ∧
      (add_entry empty_db jeManual).entries = empty_db.entries ++ [jeManual]) := by
  obtain ⟨h1, h2, h3, h4, h5, h6, h7, h8, h9, h10, h11, h12⟩ := claim_posting_routes_balanced
  refine ⟨h1 seeded_db txn100 je100 (add_entry seeded_db je100) (by with_unfolding_all rfl),
          h2 empty_db txn100 empty_db (by with_unfolding_all rfl),
          h3 seeded_db inv1 jeInvSent (add_entry seeded_db jeInvSent) (by with_unfolding_all rfl),
          h5 seeded_db inv1 none none 0 jeInvPaid (add_entry seeded_db jeInvPaid) (by with_unfolding_all rfl),
          h7 seeded_db exBill jeBill (add_entry seeded_db jeBill) (by with_unfolding_all rfl),
          h9 seeded_db exBill exPayment jeBillPay (add_entry seeded_db jeBillPay) (by with_unfolding_all rfl),
          h11 empty_db 0 "oops" badLines none (by with_unfolding_all rfl),
          h12 empty_db 0 "adjust" manualLines none jeManual (add_entry empty_db jeManual)
            (by with_unfolding_all rfl)⟩

lemma sum_debits_cons (x : JournalEntryLine) (xs : List JournalEntryLine) :
    sum_debits (x :: xs) = x.debit + sum_debits xs := by
  simp [sum_debits]

lemma sum_credits_cons (x : JournalEntryLine) (xs : List JournalEntryLine) :
    sum_credits (x :: xs) = x.credit + sum_credits xs := by
  simp [sum_credits]

/-- Σdebit − Σcredit equals the sum of per-line signed contributions. -/
lemma sum_debits_sub_sum_credits (L : List JournalEntryLine) :
    sum_debits L - sum_credits L = (L.map fun l => l.debit - l.credit).sum := by
  induction L with
  | nil => simp [sum_debits, sum_credits]
  | cons x xs ih =>
    rw [sum_debits_cons, sum_credits_cons, List.map_cons, List.sum_cons, ← ih]
    ring

/-- Filtering and mapping over a flattened line list equals the nested
per-entry sums. -/
lemma sum_flatMap_filter (entries : List JournalEntry) (p : JournalEntryLine → Bool)
    (f : JournalEntryLine → ℚ) :
    (((entries.flatMap (·.lines)).filter p).map f).sum
      = (entries.map fun e => ((e.lines.filter p).map f).sum).sum := by
  induction entries with
  | nil => simp
  | cons e es ih =>
    simp [List.flatMap_cons, List.filter_append, List.map_append, List.sum_append, ih]

/-- Claim C3: `_account_balance_at` computes the claimed signed sum over lines
of posted entries with `entry_date ≤ as_of`; `_account_balance_range`
computes the same sum restricted to `entry_date ∈ [start, stop]`; and lines
of unposted entries are excluded from both (prepending an unposted entry
changes neither balance). -/
theorem claim_balance_engine :
    (∀ db aid as_of nb,
        account_balance_at db aid as_of nb = claimed_balance_at db aid as_of nb) ∧
    (∀ db aid start stop nb,
        account_balance_range db aid start stop nb = claimed_balance_range db aid start stop nb) ∧
    (∀ db (e : JournalEntry) aid as_of nb, e.is_posted = false →
        account_balance_at { db with entries := e :: db.entries } aid as_of nb
          = account_balance_at db aid as_of nb) ∧
    (∀ db (e : JournalEntry) aid start stop nb, e.is_posted = false →
        account_balance_range { db with entries := e :: db.entries } aid start stop nb
          = account_balance_range db aid start stop nb) := by
  have key_at : ∀ db aid as_of nb,
      account_balance_at db aid as_of nb = claimed_balance_at db aid as_of nb := by
    intro db aid as_of nb
    unfold account_balance_at claimed_balance_at posted_lines_at
    dsimp only
    by_cases hnb : nb = "debit" <;>
      simp only [hnb, if_true, if_false, reduceIte] <;>
      rw [← sum_flatMap_filter, ← sum_debits_sub_sum_credits] <;>
      ring
  have key_range : ∀ db aid start stop nb,
      account_balance_range db aid start stop nb = claimed_balance_range db aid start stop nb := by
    intro db aid start stop nb
    unfold account_balance_range claimed_balance_range posted_lines_in
    dsimp only
    by_cases hnb : nb = "debit" <;>
      simp only [hnb, if_true, if_false, reduceIte] <;>
      rw [← sum_flatMap_filter, ← sum_debits_sub_sum_credits] <;>
      ring
  refine ⟨key_at, key_range, ?_, ?_⟩
  · intro db e aid as_of nb hp
    unfold account_balance_at posted_lines_at
    simp [List.filter_cons, hp]
  · intro db e aid start stop nb hp
    unfold account_balance_range posted_lines_in
    simp [List.filter_cons, hp]

/-- Witness for C3: the hypothesis-bearing conjuncts applied at a concrete
unposted entry over a concrete ledger. -/
theorem claim_balance_engine_witness :
    (account_balance_at { one_entry_db with entries := draft_entry :: one_entry_db.entries }
        1 0 "debit" = account_balance_at one_entry_db 1 0 "debit") ∧
    (account_balance_range { one_entry_db with entries := draft_entry :: one_entry_db.entries }
        1 0 0 "debit" = account_balance_range one_entry_db 1 0 0 "debit") :=
  ⟨claim_balance_engine.2.2.1 one_entry_db draft_entry 1 0 "debit" rfl,
   claim_balance_engine.2.2.2 one_entry_db draft_entry 1 0 0 "debit" rfl⟩

/-- Claim C9 (code bug): an account created WITHOUT an explicit
`normal_balance` stores `"debit"` even for a liability, contradicting the
claimed type-based default — the pydantic schema default
`normal_balance: Optional[str] = "debit"` makes the `or`-fallback in
`create_account` (which does implement the claimed rule) dead for omitted
fields; the fallback fires only on an explicit JSON `null`. -/
theorem claim_default_normal_balance_bug :
    create_account empty_db liabilityReq 1 =
      .ok (acct_omitted, { empty_db with accounts := [acct_omitted] }) ∧
    acct_omitted.normal_balance = some "debit" ∧
    create_account empty_db liabilityReqNull 1 =
      .ok (acct_null, { empty_db with accounts := [acct_null] }) ∧
    acct_null.normal_balance = some "credit" :=
  ⟨by with_unfolding_all rfl, rfl, by with_unfolding_all rfl, rfl⟩

lemma account_balance_at_eq_net (db : DB) (aid : Nat) (as_of : Int) (nb : String) :
    account_balance_at db aid as_of nb =
      if nb = "debit" then net_of_entries db.entries aid as_of
      else -net_of_entries db.entries aid as_of := by
  unfold account_balance_at posted_lines_at net_of_entries
  dsimp only
  by_cases hnb : nb = "debit" <;>
    simp only [hnb, if_true, if_false, reduceIte] <;>
    rw [← sum_debits_sub_sum_credits] <;>
    ring

lemma net_of_entries_append (E1 E2 : List JournalEntry) (aid : Nat) (as_of : Int) :
    net_of_entries (E1 ++ E2) aid as_of =
      net_of_entries E1 aid as_of + net_of_entries E2 aid as_of := by
  unfold net_of_entries
  simp [List.filter_append, List.flatMap_append, List.map_append, List.sum_append]

/-- `find?` returning a witness splits the list, and `eraseP` removes exactly
that first match. -/
lemma find_eraseP_decomp {α : Type} (p : α → Bool) (l : List α) (a : α)
    (h : l.find? p = some a) :
    ∃ l1 l2, l = l1 ++ a :: l2 ∧ l.eraseP p = l1 ++ l2 ∧ p a = true := by
  induction l with
  | nil => simp at h
  | cons x xs ih =>
    cases hpx : p x
    · rw [List.find?_cons_of_neg _ (by simp [hpx])] at h
      obtain ⟨l1, l2, h1, h2, h3⟩ := ih h
      exact ⟨x :: l1, l2, by simp [h1], by simp [List.eraseP_cons, hpx, h2], h3⟩
    · rw [List.find?_cons_of_pos _ hpx] at h
      obtain rfl : x = a := by simpa using h
      exact ⟨[], xs, rfl, by simp [List.eraseP_cons, hpx], hpx⟩

/-- Claim C7: deleting a non-manual entry fails with the ImmutableEntryError
response (HTTP 400) and leaves the store unchanged; deleting a manual entry
removes the entry with all its lines, and every balance computed afterwards
excludes exactly the contribution of that entry. -/
theorem claim_delete_manual_only :
    (∀ db eid je, db.entries.find? (fun e => e.id == eid) = some je →
        je.entry_type ≠ "manual" →
        delete_journal_entry db eid =
          (.error (400, "Only manual journal entries can be deleted"), db)) ∧
    (∀ db eid je, db.entries.find? (fun e => e.id == eid) = some je →
        je.entry_type = "manual" →
        ∃ l1 l2, db.entries = l1 ++ je :: l2 ∧
          delete_journal_entry db eid =
            (.ok "Journal entry deleted", { db with entries := l1 ++ l2 }) ∧
          ∀ aid as_of nb,
            account_balance_at db aid as_of nb =
              account_balance_at { db with entries := l1 ++ l2 } aid as_of nb +
                (if nb = "debit" then net_of_entries [je] aid as_of
                 else -net_of_entries [je] aid as_of)) := by
  constructor
  · intro db eid je hf hne
    unfold delete_journal_entry
    rw [hf]
    simp [hne]
  · intro db eid je hf hman
    obtain ⟨l1, l2, hsplit, herase, -⟩ := find_eraseP_decomp _ _ _ hf
    refine ⟨l1, l2, hsplit, ?_, ?_⟩
    · unfold delete_journal_entry
      rw [hf]
      simp [hman, herase]
    · intro aid as_of nb
      rw [account_balance_at_eq_net, account_balance_at_eq_net]
      simp only [hsplit]
      have h1 : net_of_entries (l1 ++ je :: l2) aid as_of =
          net_of_entries l1 aid as_of + net_of_entries [je] aid as_of +
            net_of_entries l2 aid as_of := by
        rw [show l1 ++ je :: l2 = l1 ++ [je] ++ l2 by simp,
            net_of_entries_append, net_of_entries_append]
      have h2 : net_of_entries (l1 ++ l2) aid as_of =
          net_of_entries l1 aid as_of + net_of_entries l2 aid as_of :=
        net_of_entries_append l1 l2 aid as_of
      by_cases hnb : nb = "debit" <;> simp only [hnb, if_true, if_false, reduceIte] <;>
        rw [h1, h2] <;> ring

/-- Witness for C7: deleting the auto entry fails and changes nothing;
deleting the manual entry removes it and its contribution. -/
theorem claim_delete_manual_only_witness :
    (delete_journal_entry mixed_db 2 =
      (.error (400, "Only manual journal entries can be deleted"), mixed_db)) ∧
    (∃ l1 l2, mixed_db.entries = l1 ++ jeManual :: l2 ∧
      delete_journal_entry mixed_db 1 =
        (.ok "Journal entry deleted", { mixed_db with entries := l1 ++ l2 }) ∧
      ∀ aid as_of nb,
        account_balance_at mixed_db aid as_of nb =
          account_balance_at { mixed_db with entries := l1 ++ l2 } aid as_of nb +
            (if nb = "debit" then net_of_entries [jeManual] aid as_of
             else -net_of_entries [jeManual] aid as_of)) :=
  ⟨claim_delete_manual_only.1 mixed_db 2 jeAuto2 (by with_unfolding_all rfl) (by decide),
   claim_delete_manual_only.2 mixed_db 1 jeManual (by with_unfolding_all rfl) rfl⟩

lemma sum_debits_append (A B : List JournalEntryLine) :
    sum_debits (A ++ B) = sum_debits A + sum_debits B := by
  simp [sum_debits]

lemma sum_credits_append (A B : List JournalEntryLine) :
    sum_credits (A ++ B) = sum_credits A + sum_credits B := by
  simp [sum_credits]

/-- Claim C4: for an expense transaction whose category-mapped expense account
(default 5950), payment-mapped credit account (default 1050) and — when
tax > 0 — GST receivable (1300) all resolve, the rule posts exactly the
claimed line set: debit the expense account for the net amount, debit GST
receivable for the tax when tax > 0, credit the payment account for net+tax.
Instantiated at the spec example (100.00, tax 5.00, office_supplies, cash on
the default chart) by the witness, this is the 3-line entry
debit 5250 100.00 / debit 1300 5.00 / credit 1000 105.00. -/
theorem claim_expense_rule (db : DB) (txn : Transaction)
    (hcat : txn.category = "expense")
    (ea ca ga : Account)
    (hea : get_account_by_code db (resolve_expense_account_code txn.subcategory) = some ea)
    (hca : get_account_by_code db (resolve_credit_account_code txn.payment_method) = some ca)
    (htax : 0 ≤ txn.tax_amount.getD 0)
    (hga : 0 < txn.tax_amount.getD 0 → get_account_by_code db "1300" = some ga) :
    create_je_for_transaction db txn =
      (some { id := db.nextEntryId,
              entry_date := txn.transaction_date,
              description := txn.description,
              reference := some ("TXN-" ++ toString txn.id),
              entry_type := "auto_expense",
              transaction_id := some txn.id,
              is_posted := true,
              lines :=
                [{ account_id := ea.id, description := some txn.description,
                   debit := |txn.amount|, credit := 0 }] ++
                (if 0 < txn.tax_amount.getD 0 then
                   [{ account_id := ga.id, description := some ("GST on " ++ txn.description),
                      debit := txn.tax_amount.getD 0, credit := 0 }]
                 else []) ++
                [{ account_id := ca.id, description := some txn.description,
                   debit := 0, credit := |txn.amount| + txn.tax_amount.getD 0 }] },
       add_entry db
            { id := db.nextEntryId,
              entry_date := txn.transaction_date,
              description := txn.description,
              reference := some ("TXN-" ++ toString txn.id),
              entry_type := "auto_expense",
              transaction_id := some txn.id,
              is_posted := true,
              lines :=
                [{ account_id := ea.id, description := some txn.description,
                   debit := |txn.amount|, credit := 0 }] ++
                (if 0 < txn.tax_amount.getD 0 then
                   [{ account_id := ga.id, description := some ("GST on " ++ txn.description),
                      debit := txn.tax_amount.getD 0, credit := 0 }]
                 else []) ++
                [{ account_id := ca.id, description := some txn.description,
                   debit := 0, credit := |txn.amount| + txn.tax_amount.getD 0 }] }) := by
  have hcand : txn_candidate_lines db txn = some
      ([{ account_id := ea.id, description := some txn.description,
          debit := |txn.amount|, credit := 0 }] ++
       (if 0 < txn.tax_amount.getD 0 then
          [{ account_id := ga.id, description := some ("GST on " ++ txn.description),
             debit := txn.tax_amount.getD 0, credit := 0 }]
        else []) ++
       [{ account_id := ca.id, description := some txn.description,
          debit := 0, credit := |txn.amount| + txn.tax_amount.getD 0 }]) := by
    unfold txn_candidate_lines txn_expense_lines
    by_cases hpos : 0 < txn.tax_amount.getD 0
    · simp [hcat, hea, hca, hpos, hga hpos]
    · simp [hcat, hea, hca, hpos]
  have hval : validate_journal_entry_balance
      ([{ account_id := ea.id, description := some txn.description,
          debit := |txn.amount|, credit := 0 }] ++
       (if 0 < txn.tax_amount.getD 0 then
          [{ account_id := ga.id, description := some ("GST on " ++ txn.description),
             debit := txn.tax_amount.getD 0, credit := 0 }]
        else []) ++
       [{ account_id := ca.id, description := some txn.description,
          debit := 0, credit := |txn.amount| + txn.tax_amount.getD 0 }]) = true := by
    rw [validate_iff]
    by_cases hpos : 0 < txn.tax_amount.getD 0
    · simp only [hpos, if_true, reduceIte, sum_debits_append, sum_credits_append]
      simp [sum_debits, sum_credits]
    · have ht0 : txn.tax_amount.getD 0 = 0 := le_antisymm (not_lt.mp hpos) htax
      simp only [hpos, if_false, reduceIte, sum_debits_append, sum_credits_append]
      simp [sum_debits, sum_credits, ht0]
  have hval' := hval
  simp only [List.cons_append, List.singleton_append, List.nil_append] at hval'
  unfold create_je_for_transaction
  rw [hcand]
  simp [hval', hcat]

/-- Witness for C4: the expense rule at the spec example — 100.00, tax 5.00,
subcategory office_supplies, payment cash, on the seeded default chart —
yields exactly the 3 claimed lines (debit 5250 100.00, debit 1300 5.00,
credit 1000 105.00). -/
theorem claim_expense_rule_witness :
    create_je_for_transaction seeded_db txn100 = (some je100, add_entry seeded_db je100) := by
  have h := claim_expense_rule seeded_db txn100 rfl
      (mkSeedAccount 26 "5250" "Office Supplies" "expense" "expense" (some "8810") "debit")
      (mkSeedAccount 1 "1000" "Cash" "asset" "current_asset" none "debit")
      (mkSeedAccount 5 "1300" "GST/HST Receivable" "asset" "current_asset" none "debit")
      (by with_unfolding_all rfl) (by with_unfolding_all rfl)
      (by norm_num [txn100])
      (fun _ => by with_unfolding_all rfl)
  rw [h]
  with_unfolding_all rfl

/-- When every item resolves, the item loop produces exactly one debit line
per item, in item order, against the resolved account. -/
lemma bill_item_lines_eq_map (db : DB) (bill : Bill) (items : List BillItem)
    (h : ∀ it ∈ items, (resolved_item_account db bill it).isSome = true) :
    bill_item_lines db bill items = some (items.map fun it =>
      { account_id := ((resolved_item_account db bill it).getD default).id,
        description := it.description, debit := round2 it.amount, credit := 0 }) := by
  induction items with
  | nil => rfl
  | cons it rest ih =>
    obtain ⟨a, ha⟩ := Option.isSome_iff_exists.mp (h it (by simp))
    unfold bill_item_lines
    rw [ha, ih (fun x hx => h x (by simp [hx]))]
    simp [ha]

/-- Claim C5: for a received bill with a nonempty item list whose AP account
and item accounts resolve (and GST receivable when gst > 0), and whose
candidate set balances, the rule posts exactly: one debit per item for its
amount against its resolved account (item-level → bill-level → 5950), a GST
receivable debit for the tax, and one AP credit for the bill total.
The witness instantiates the example with items A 60.00 and B 40.00, gst 5.00: exactly 4
lines ending in credit AP 105.00. -/
theorem claim_bill_received_rule (db : DB) (bill : Bill)
    (ap ga : Account)
    (hap : get_account_by_code db "2000" = some ap)
    (hne : bill.items ≠ [])
    (hres : ∀ it ∈ bill.items, (resolved_item_account db bill it).isSome = true)
    (hga : 0 < bill.gst_amount.getD 0 → get_account_by_code db "1300" = some ga)
    (hbal : validate_journal_entry_balance (bill_expected_lines db bill ga ap) = true) :
    create_je_for_bill_received db bill =
      (some { id := db.nextEntryId,
              entry_date := bill.bill_date,
              description := "Bill " ++ bill.bill_number ++ " received",
              reference := some bill.bill_number,
              entry_type := "auto_bill",
              bill_id := some bill.id,
              is_posted := true,
              lines := bill_expected_lines db bill ga ap },
       add_entry db
            { id := db.nextEntryId,
              entry_date := bill.bill_date,
              description := "Bill " ++ bill.bill_number ++ " received",
              reference := some bill.bill_number,
              entry_type := "auto_bill",
              bill_id := some bill.id,
              is_posted := true,
              lines := bill_expected_lines db bill ga ap }) := by
  have hcand : bill_received_candidate_lines db bill = some (bill_expected_lines db bill ga ap) := by
    unfold bill_received_candidate_lines
    rw [hap, bill_item_lines_eq_map db bill bill.items hres]
    have hmapne : (bill.items.map fun it =>
        ({ account_id := ((resolved_item_account db bill it).getD default).id,
           description := it.description, debit := round2 it.amount,
           credit := 0 } : JournalEntryLine)).isEmpty = false := by
      cases hb : bill.items with
      | nil => exact absurd hb hne
      | cons x xs => simp
    simp only [hmapne, Bool.false_eq_true, if_false, reduceIte]
    unfold bill_expected_lines
    by_cases hpos : 0 < bill.gst_amount.getD 0
    · rw [hga hpos]
      simp [hpos]
    · simp [hpos]
  unfold create_je_for_bill_received
  rw [hcand]
  simp [hbal]

/-- Witness for C5: the bill rule at the spec example — items A 60.00 and
B 40.00 on their own expense accounts, gst 5.00, total 105.00, on the seeded
chart — posts exactly 4 lines: debit A 60.00, debit B 40.00, debit GST
receivable 5.00, credit AP 105.00. -/
theorem claim_bill_received_rule_witness :
    create_je_for_bill_received seeded_db exBill = (some jeBill, add_entry seeded_db jeBill) := by
  have h := claim_bill_received_rule seeded_db exBill
      (mkSeedAccount 11 "2000" "Accounts Payable" "liability" "current_liability" none "credit")
      (mkSeedAccount 5 "1300" "GST/HST Receivable" "asset" "current_asset" none "debit")
      (by with_unfolding_all rfl)
      (by simp [exBill])
      (by intro it hit; fin_cases hit <;> with_unfolding_all rfl)
      (fun _ => by with_unfolding_all rfl)
      (by with_unfolding_all rfl)
  rw [h]
  with_unfolding_all rfl

/-- If any item of the list fails to resolve, the whole item loop aborts. -/
lemma bill_item_lines_none (db : DB) (bill : Bill) (it : BillItem)
    (items : List BillItem) (hmem : it ∈ items)
    (hn : resolved_item_account db bill it = none) :
    bill_item_lines db bill items = none := by
  induction items with
  | nil => simp at hmem
  | cons x xs ih =>
    unfold bill_item_lines
    rcases List.mem_cons.mp hmem with rfl | hx
    · rw [hn]
    · cases hr : resolved_item_account db bill x
      · rfl
      · simp [hr, ih hx]

/-- Claim C6 (amended): whenever a required account lookup fails, the posting
rule returns `none` (the MappingError signal) before any write and the ledger
state is returned unchanged.  Code-based lookups (`_get_account_by_code`)
fail when the account is missing OR inactive; the id-based item-level and
bill-level lookups of the bill rule fail only when no account with that id
exists at all — an existing but inactive account is resolved and used — and
then fall back to the 5950 code lookup. -/
theorem claim_mapping_error_state_unchanged :
    (∀ db txn, txn.category = "expense" →
        (get_account_by_code db (resolve_expense_account_code txn.subcategory) = none ∨
         get_account_by_code db (resolve_credit_account_code txn.payment_method) = none) →
        create_je_for_transaction db txn = (none, db)) ∧
    (∀ db txn, txn.category = "revenue" →
        (get_account_by_code db "4000" = none ∨ get_account_by_code db "1050" = none) →
        create_je_for_transaction db txn = (none, db)) ∧
    (∀ db invoice,
        (get_account_by_code db "1100" = none ∨ get_account_by_code db "4000" = none) →
        create_je_for_invoice_sent db invoice = (none, db)) ∧
    (∀ db invoice amount pd today,
        (get_account_by_code db "1050" = none ∨ get_account_by_code db "1100" = none) →
        create_je_for_invoice_paid db invoice amount pd today = (none, db)) ∧
    (∀ db bill, get_account_by_code db "2000" = none →
        create_je_for_bill_received db bill = (none, db)) ∧
    (∀ db bill it, it ∈ bill.items → resolved_item_account db bill it = none →
        create_je_for_bill_received db bill = (none, db)) ∧
    (∀ db bill payment,
        (get_account_by_code db "2000" = none ∨ get_account_by_code db "1050" = none) →
        create_je_for_bill_payment db bill payment = (none, db)) := by
  refine ⟨?_, ?_, ?_, ?_, ?_, ?_, ?_⟩
  · intro db txn hcat hnone
    unfold create_je_for_transaction txn_candidate_lines txn_expense_lines
    rcases hnone with h | h
    · cases h2 : get_account_by_code db (resolve_credit_account_code txn.payment_method) <;>
        simp [hcat, h, h2]
    · cases h2 : get_account_by_code db (resolve_expense_account_code txn.subcategory) <;>
        simp [hcat, h, h2]
  · intro db txn hcat hnone
    have hne : txn.category ≠ "expense" := by rw [hcat]; decide
    unfold create_je_for_transaction txn_candidate_lines txn_revenue_lines
    rcases hnone with h | h
    · cases h2 : get_account_by_code db "1050" <;> simp [hcat, hne, h, h2]
    · cases h2 : get_account_by_code db "4000" <;> simp [hcat, hne, h, h2]
  · intro db invoice hnone
    unfold create_je_for_invoice_sent invoice_sent_lines
    rcases hnone with h | h
    · cases h2 : get_account_by_code db "4000" <;> simp [h, h2]
    · cases h2 : get_account_by_code db "1100" <;> simp [h, h2]
  · intro db invoice amount pd today hnone
    unfold create_je_for_invoice_paid invoice_paid_lines
    rcases hnone with h | h
    · cases h2 : get_account_by_code db "1100" <;> simp [h, h2]
    · cases h2 : get_account_by_code db "1050" <;> simp [h, h2]
  · intro db bill h
    unfold create_je_for_bill_received bill_received_candidate_lines
    simp [h]
  · intro db bill it hmem hn
    unfold create_je_for_bill_received bill_received_candidate_lines
    cases hap : get_account_by_code db "2000"
    · simp [hap]
    · simp [hap, bill_item_lines_none db bill it bill.items hmem hn]
  · intro db bill payment hnone
    unfold create_je_for_bill_payment bill_payment_lines
    rcases hnone with h | h
    · cases h2 : get_account_by_code db "1050" <;> simp [h, h2]
    · cases h2 : get_account_by_code db "2000" <;> simp [h, h2]

/-- Counterexample for C6 as stated: the bill rule resolves an item-level
account by id WITHOUT checking `is_active`, so a required account that exists
but is inactive does not produce a MappingError — the entry is created and
written against the inactive account. -/
theorem claim_mapping_error_counterexample :
    ((get_account_by_id c6_db 7).getD default).is_active = false ∧
    c6_bill.items.map (·.account_id) = [some 7] ∧
    create_je_for_bill_received c6_db c6_bill = (some c6_entry, add_entry c6_db c6_entry) :=
  ⟨by with_unfolding_all rfl, rfl, by with_unfolding_all rfl⟩

/-- Witness for C6: each conjunct applied at a concrete failing lookup, all
returning `none` with the state unchanged. -/
theorem claim_mapping_error_witness :
    create_je_for_transaction empty_db txn100 = (none, empty_db) ∧
    create_je_for_transaction empty_db txnRev = (none, empty_db) ∧
    create_je_for_invoice_sent empty_db inv1 = (none, empty_db) ∧
    create_je_for_invoice_paid empty_db inv1 none none 0 = (none, empty_db) ∧
    create_je_for_bill_received empty_db exBill = (none, empty_db) ∧
    create_je_for_bill_received ap_only_db bill99 = (none, ap_only_db) ∧
    create_je_for_bill_payment empty_db exBill exPayment = (none, empty_db) := by
  obtain ⟨h1, h2, h3, h4, h5, h6, h7⟩ := claim_mapping_error_state_unchanged
  refine ⟨h1 empty_db txn100 rfl (Or.inl (by with_unfolding_all rfl)),
          h2 empty_db txnRev rfl (Or.inl (by with_unfolding_all rfl)),
          h3 empty_db inv1 (Or.inl (by with_unfolding_all rfl)),
          h4 empty_db inv1 none none 0 (Or.inl (by with_unfolding_all rfl)),
          h5 empty_db exBill (by with_unfolding_all rfl),
          h6 ap_only_db bill99
            { id := 1, description := some "ghost", amount := 10, account_id := some 99 }
            (by simp [bill99]) (by with_unfolding_all rfl),
          h7 empty_db exBill exPayment (Or.inl (by with_unfolding_all rfl))⟩

lemma Cent.zero : Cent 0 := ⟨0, by norm_num⟩

lemma Cent.add {a b : ℚ} (ha : Cent a) (hb : Cent b) : Cent (a + b) := by
  obtain ⟨j, rfl⟩ := ha
  obtain ⟨k, rfl⟩ := hb
  exact ⟨j + k, by push_cast; ring⟩

lemma Cent.neg {a : ℚ} (ha : Cent a) : Cent (-a) := by
  obtain ⟨j, rfl⟩ := ha
  exact ⟨-j, by push_cast; ring⟩

lemma Cent.sub {a b : ℚ} (ha : Cent a) (hb : Cent b) : Cent (a - b) := by
  rw [sub_eq_add_neg]
  exact ha.add hb.neg

lemma Cent.list_sum {L : List ℚ} (h : ∀ q ∈ L, Cent q) : Cent L.sum := by
  induction L with
  | nil => simpa using Cent.zero
  | cons x xs ih =>
    rw [List.sum_cons]
    exact (h x (by simp)).add (ih (fun q hq => h q (by simp [hq])))

/-- Rounding to two decimals is the identity on whole-cent values. -/
lemma round2_cent {q : ℚ} (hq : Cent q) : round2 q = q := by
  obtain ⟨k, rfl⟩ := hq
  unfold round2
  dsimp only
  have h100 : ((k : ℚ) / 100) * 100 = (k : ℚ) := by
    field_simp
  rw [h100, Int.floor_intCast]
  norm_num

/-- A whole-cent value below the 0.01 reporting threshold is exactly zero. -/
lemma cent_small_eq_zero {q : ℚ} (hq : Cent q) (h : |q| < (1 : ℚ)/100) : q = 0 := by
  obtain ⟨k, rfl⟩ := hq
  have habs : |(k : ℚ)| / 100 < 1 / 100 := by
    rwa [abs_div, show |(100:ℚ)| = 100 by norm_num] at h
  have h1 : |(k : ℚ)| < 1 := by linarith
  have h2 : ((|k| : ℤ) : ℚ) < 1 := by rwa [Int.cast_abs]
  have h3 : |k| < 1 := by exact_mod_cast h2
  have h4 := abs_lt.mp h3
  have hk0 : k = 0 := by omega
  simp [hk0]

/-- If mapped keys are nodup and a satisfying element exists whose key every
satisfying element shares, the predicate holds exactly once. -/
lemma countP_eq_one_of_nodup_key {α κ : Type} [DecidableEq κ] (key : α → κ)
    (p : α → Bool) (l : List α) (hnd : (l.map key).Nodup)
    (a : α) (ha : a ∈ l) (hpa : p a = true)
    (hkey : ∀ x ∈ l, p x = true → key x = key a) : l.countP p = 1 := by
  induction l with
  | nil => simp at ha
  | cons x xs ih =>
    rw [List.map_cons, List.nodup_cons] at hnd
    rcases List.mem_cons.mp ha with rfl | hmem
    · have hz : xs.countP p = 0 := by
        rw [List.countP_eq_zero]
        intro b hb hpb
        exact hnd.1 (by
          rw [← hkey b (by simp [hb]) hpb]
          exact List.mem_map_of_mem key hb)
      rw [List.countP_cons, hpa, hz]
      simp
    · have hx : p x = false := by
        cases hpx : p x
        · rfl
        · exfalso
          have hkx : key x = key a := hkey x (by simp) hpx
          have hka : key a ∈ xs.map key := List.mem_map_of_mem key hmem
          exact hnd.1 (hkx ▸ hka)
      rw [List.countP_cons, hx]
      simp only [Bool.false_eq_true, if_false, reduceIte, Nat.add_zero]
      exact ih hnd.2 hmem (fun b hb hpb => hkey b (by simp [hb]) hpb)

/-- Summing an indicator over a list counts the matches. -/
lemma sum_map_ite_count {α β : Type} (A : List α) (p : α → β → Bool) (x : β) (c : ℚ) :
    (A.map (fun a => if p a x then c else 0)).sum = (A.countP (fun a => p a x) : ℚ) * c := by
  induction A with
  | nil => simp
  | cons b bs ihb =>
    rw [List.map_cons, List.sum_cons, List.countP_cons, ihb]
    by_cases hpb : p b x <;> simp [hpb] <;> push_cast <;> ring

/-- Double counting: when every element of `L` satisfies the predicate of
exactly one `a ∈ A`, grouping by `A` preserves the total. -/
lemma sum_group {α β : Type} (A : List α) (L : List β) (p : α → β → Bool)
    (f : β → ℚ) (h : ∀ l ∈ L, A.countP (fun a => p a l) = 1) :
    (A.map (fun a => ((L.filter (p a)).map f).sum)).sum = (L.map f).sum := by
  induction L with
  | nil => simp
  | cons x xs ih =>
    have hsplit : ∀ a : α, ((List.filter (p a) (x :: xs)).map f).sum =
        (if p a x then f x else 0) + ((xs.filter (p a)).map f).sum := by
      intro a
      rw [List.filter_cons]
      by_cases hpa : p a x <;> simp [hpa]
    calc (A.map (fun a => ((List.filter (p a) (x :: xs)).map f).sum)).sum
        = (A.map (fun a => (if p a x then f x else 0) + ((xs.filter (p a)).map f).sum)).sum := by
          simp only [hsplit]
      _ = (A.map (fun a => if p a x then f x else 0)).sum
            + (A.map (fun a => ((xs.filter (p a)).map f).sum)).sum := by
          rw [← List.sum_map_add]
      _ = (A.countP (fun a => p a x) : ℚ) * f x
            + (xs.map f).sum := by
          rw [sum_map_ite_count, ih (fun l hl => h l (by simp [hl]))]
      _ = ((x :: xs).map f).sum := by
          rw [h x (by simp)]
          simp

lemma trial_balance_row_eq (db : DB) (as_of : Int) (acct : Account) :
    trial_balance_row db as_of acct =
      (if |account_net db as_of acct.id| < (1 : ℚ)/100 then none
       else some { code := acct.code, name := acct.name, account_type := acct.account_type,
                   debit := if 0 < account_net db as_of acct.id
                            then round2 (account_net db as_of acct.id) else 0,
                   credit := if account_net db as_of acct.id < 0
                             then round2 |account_net db as_of acct.id| else 0 }) := by
  unfold trial_balance_row account_net
  dsimp only
  rw [sum_debits_sub_sum_credits]

/-- Total debit minus total credit over the emitted rows equals the plain sum
of account nets, provided every net is a whole number of cents. -/
lemma rows_totals (db : DB) (as_of : Int) (S : List Account)
    (hc : ∀ a ∈ S, Cent (account_net db as_of a.id)) :
    ((S.filterMap (trial_balance_row db as_of)).map (·.debit)).sum
      - ((S.filterMap (trial_balance_row db as_of)).map (·.credit)).sum
      = (S.map (fun a => account_net db as_of a.id)).sum := by
  induction S with
  | nil => simp
  | cons a as ih =>
    have hca := hc a (by simp)
    have ihs := ih (fun b hb => hc b (by simp [hb]))
    rw [List.filterMap_cons, trial_balance_row_eq]
    by_cases hsmall : |account_net db as_of a.id| < (1:ℚ)/100
    · rw [if_pos hsmall]
      have hz : account_net db as_of a.id = 0 := cent_small_eq_zero hca hsmall
      simp [ihs, hz]
    · rw [if_neg hsmall]
      simp only [List.map_cons, List.sum_cons]
      rcases lt_trichotomy (account_net db as_of a.id) 0 with hlt | heq | hgt
      · have hng : ¬ 0 < account_net db as_of a.id := by linarith
        rw [if_neg hng, if_pos hlt, abs_of_neg hlt, round2_cent hca.neg]
        linarith
      · exact absurd (by rw [heq]; norm_num) hsmall
      · have hn : ¬ account_net db as_of a.id < 0 := by linarith
        rw [if_pos hgt, if_neg hn, round2_cent hca]
        linarith

/-- Sum of a function over a flattened list equals the nested sums. -/
lemma sum_map_flatMap {α β : Type} (L : List α) (f : α → List β) (g : β → ℚ) :
    ((L.flatMap f).map g).sum = (L.map (fun e => ((f e).map g).sum)).sum := by
  induction L with
  | nil => simp
  | cons x xs ih => simp [List.flatMap_cons, ih]

/-- Membership in the posted-line join comes from a posted, in-range entry. -/
lemma mem_posted_lines_at {db : DB} {as_of : Int} {l : JournalEntryLine}
    (hl : l ∈ posted_lines_at db as_of) :
    ∃ e ∈ db.entries, e.is_posted = true ∧ e.entry_date ≤ as_of ∧ l ∈ e.lines := by
  unfold posted_lines_at at hl
  obtain ⟨e, he, hle⟩ := List.mem_flatMap.mp hl
  obtain ⟨hee, hcond⟩ := List.mem_filter.mp he
  simp only [Bool.and_eq_true] at hcond
  exact ⟨e, hee, hcond.1, by simpa using hcond.2, hle⟩

/-- When every posted entry up to the date balances exactly, the flattened
signed line sum vanishes. -/
lemma posted_lines_sum_zero (db : DB) (as_of : Int)
    (hexact : ∀ e ∈ db.entries, e.is_posted = true → e.entry_date ≤ as_of →
        sum_debits e.lines = sum_credits e.lines) :
    ((posted_lines_at db as_of).map fun l => l.debit - l.credit).sum = 0 := by
  unfold posted_lines_at
  rw [sum_map_flatMap]
  apply List.sum_eq_zero
  intro q hq
  obtain ⟨e, he, hqe⟩ := List.mem_map.mp hq
  obtain ⟨hee, hcond⟩ := List.mem_filter.mp he
  simp only [Bool.and_eq_true] at hcond
  rw [← hqe, ← sum_debits_sub_sum_credits,
      hexact e hee hcond.1 (by simpa using hcond.2), sub_self]

/-- Grouping the signed line sum by active account: needs every posted line to
hit an active account and account ids to be unique. -/
lemma active_nets_sum (db : DB) (as_of : Int)
    (hnodup : (db.accounts.map (·.id)).Nodup)
    (hactive : ∀ e ∈ db.entries, e.is_posted = true → e.entry_date ≤ as_of →
        ∀ l ∈ e.lines, ∃ a ∈ db.accounts, a.id = l.account_id ∧ a.is_active = true) :
    ((db.accounts.filter (·.is_active)).map (fun a => account_net db as_of a.id)).sum
      = ((posted_lines_at db as_of).map fun l => l.debit - l.credit).sum := by
  unfold account_net
  apply sum_group (db.accounts.filter (·.is_active)) (posted_lines_at db as_of)
    (fun a l => l.account_id == a.id) (fun l => l.debit - l.credit)
  intro l hl
  obtain ⟨e, he, hp, hd, hle⟩ := mem_posted_lines_at hl
  obtain ⟨a, hamem, haid, hact⟩ := hactive e he hp hd l hle
  have hndA : ((db.accounts.filter (·.is_active)).map (·.id)).Nodup :=
    List.Nodup.sublist (List.Sublist.map _ (List.filter_sublist _)) hnodup
  refine countP_eq_one_of_nodup_key (·.id) _ _ hndA a
    (List.mem_filter.mpr ⟨hamem, hact⟩) (by simp [haid]) ?_
  intro x hx hpx
  have hxid : l.account_id = x.id := by simpa using hpx
  simp [← hxid, haid]

/-- Claim C2 (amended): for every as-of date and every ledger state in which
(1) each posted entry dated ≤ as_of balances EXACTLY, (2) every line of such
entries is a whole number of cents, (3) every such line references an active
account, and (4) account ids are unique, the trial balance has
total_debit = total_credit and is_balanced = true (accounts with net 0 — the
only possible |net| < 0.01 under these hypotheses — are omitted without
affecting the totals). -/
theorem claim_trial_balance_balanced (db : DB) (as_of : Int)
    (hnodup : (db.accounts.map (·.id)).Nodup)
    (hexact : ∀ e ∈ db.entries, e.is_posted = true → e.entry_date ≤ as_of →
        sum_debits e.lines = sum_credits e.lines)
    (hcents : ∀ e ∈ db.entries, e.is_posted = true → e.entry_date ≤ as_of →
        ∀ l ∈ e.lines, Cent l.debit ∧ Cent l.credit)
    (hactive : ∀ e ∈ db.entries, e.is_posted = true → e.entry_date ≤ as_of →
        ∀ l ∈ e.lines, ∃ a ∈ db.accounts, a.id = l.account_id ∧ a.is_active = true) :
    (trial_balance db as_of).total_debit = (trial_balance db as_of).total_credit ∧
    (trial_balance db as_of).is_balanced = true := by
  have hCentNet : ∀ aid, Cent (account_net db as_of aid) := by
    intro aid
    apply Cent.list_sum
    intro q hq
    obtain ⟨l, hlmem, hlq⟩ := List.mem_map.mp hq
    have hlL : l ∈ posted_lines_at db as_of := (List.mem_filter.mp hlmem).1
    obtain ⟨e, he, hp, hd, hle⟩ := mem_posted_lines_at hlL
    obtain ⟨hcd, hcc⟩ := hcents e he hp hd l hle
    rw [← hlq]
    exact hcd.sub hcc
  have hperm : ((db.accounts.filter (·.is_active)).mergeSort
      (fun a b => a.code ≤ b.code)).Perm (db.accounts.filter (·.is_active)) :=
    List.mergeSort_perm _ _
  have hdiff : (trial_balance db as_of).total_debit - (trial_balance db as_of).total_credit
      = 0 := by
    show ((((db.accounts.filter (·.is_active)).mergeSort
        (fun a b => a.code ≤ b.code)).filterMap (trial_balance_row db as_of)).map (·.debit)).sum
      - ((((db.accounts.filter (·.is_active)).mergeSort
        (fun a b => a.code ≤ b.code)).filterMap (trial_balance_row db as_of)).map (·.credit)).sum
      = 0
    rw [rows_totals db as_of _ (fun a _ => hCentNet a.id)]
    rw [(hperm.map (fun a => account_net db as_of a.id)).sum_eq]
    rw [active_nets_sum db as_of hnodup hactive]
    exact posted_lines_sum_zero db as_of hexact
  constructor
  · linarith [hdiff]
  · show decide (|(trial_balance db as_of).total_debit
        - (trial_balance db as_of).total_credit| < (1 : ℚ)/100) = true
    rw [hdiff]
    norm_num

/-- Counterexample for C2 as stated: a ledger in which every posted entry
balances (here exactly), yet the trial balance is NOT balanced — the entry
credits an account that has been deactivated, so its side of the ledger is
missing from the report: total_debit 100, total_credit 0, is_balanced false. -/
theorem claim_trial_balance_counterexample :
    validate_journal_entry_balance c2_entry.lines = true ∧
    c2x_db.entries = [c2_entry] ∧
    (trial_balance c2x_db 0).total_debit = 100 ∧
    (trial_balance c2x_db 0).total_credit = 0 ∧
    (trial_balance c2x_db 0).is_balanced = false :=
  ⟨by with_unfolding_all rfl, rfl, by with_unfolding_all rfl,
   by with_unfolding_all rfl, by with_unfolding_all rfl⟩

/-- Witness for the amended C2: on a concrete ledger meeting the hypotheses
(exactly balanced posted entry, cent amounts, all accounts active, unique
ids) the trial balance balances. -/
theorem claim_trial_balance_balanced_witness :
    (trial_balance c2w_db 0).total_debit = (trial_balance c2w_db 0).total_credit ∧
    (trial_balance c2w_db 0).is_balanced = true := by
  apply claim_trial_balance_balanced c2w_db 0
  · decide
  · intro e he hp hd
    fin_cases he
    with_unfolding_all rfl
  · intro e he hp hd l hl
    fin_cases he
    fin_cases hl
    · exact ⟨⟨10000, by norm_num⟩, ⟨0, by norm_num⟩⟩
    · exact ⟨⟨0, by norm_num⟩, ⟨10000, by norm_num⟩⟩
  · intro e he hp hd l hl
    fin_cases he
    fin_cases hl
    · exact ⟨c2_bank, by simp [c2w_db], rfl, rfl⟩
    · exact ⟨c2_rev, by simp [c2w_db], rfl, rfl⟩

/-- The transaction rule either leaves the state alone or appends one entry. -/
lemma create_txn_snd (db : DB) (txn : Transaction) :
    (create_je_for_transaction db txn).2 = db ∨
    ∃ je, (create_je_for_transaction db txn).1 = some je ∧
      (create_je_for_transaction db txn).2 = add_entry db je := by
  rcases hr : (create_je_for_transaction db txn).1 with _ | je
  · left
    have h : create_je_for_transaction db txn
        = (none, (create_je_for_transaction db txn).2) := by
      rw [← hr]
    exact create_txn_eq_none h
  · right
    have h : create_je_for_transaction db txn
        = (some je, (create_je_for_transaction db txn).2) := by
      rw [← hr]
    obtain ⟨-, hdb, -, -, -⟩ := create_txn_eq_some h
    exact ⟨je, rfl, hdb⟩

lemma create_txn_accounts (db : DB) (txn : Transaction) :
    (create_je_for_transaction db txn).2.accounts = db.accounts := by
  rcases create_txn_snd db txn with h | ⟨je, -, h⟩ <;> simp [h, add_entry]

lemma create_txn_transactions (db : DB) (txn : Transaction) :
    (create_je_for_transaction db txn).2.transactions = db.transactions := by
  rcases create_txn_snd db txn with h | ⟨je, -, h⟩ <;> simp [h, add_entry]

/-- The candidate line set only reads the chart of accounts. -/
lemma txn_candidate_lines_congr {db db0 : DB} (h : db.accounts = db0.accounts)
    (txn : Transaction) :
    txn_candidate_lines db txn = txn_candidate_lines db0 txn := by
  unfold txn_candidate_lines txn_expense_lines txn_revenue_lines get_account_by_code
  rw [h]

/-- Whether the transaction rule posts depends only on the chart. -/
lemma create_txn_isSome_congr {db db0 : DB} (h : db.accounts = db0.accounts)
    (txn : Transaction) :
    (create_je_for_transaction db txn).1.isSome
      = (create_je_for_transaction db0 txn).1.isSome := by
  unfold create_je_for_transaction
  rw [txn_candidate_lines_congr h]
  cases txn_candidate_lines db0 txn
  · rfl
  · rename_i lines
    cases hv : validate_journal_entry_balance lines <;> simp [hv]

/-- The migration loop reads but never writes accounts and transactions. -/
lemma migrate_loop_pres (ex : List Nat) (ts : List Transaction) : ∀ db : DB,
    (migrate_loop ex db ts).2.accounts = db.accounts ∧
    (migrate_loop ex db ts).2.transactions = db.transactions := by
  induction ts with
  | nil => intro db; exact ⟨rfl, rfl⟩
  | cons t ts ih =>
    intro db
    unfold migrate_loop
    by_cases hmem : t.id ∈ ex
    · simp only [hmem, if_true, reduceIte]
      exact ih db
    · simp only [hmem, if_false, reduceIte]
      rcases hc : create_je_for_transaction db t with ⟨r, db1⟩
      cases r
      · have hdb1 : db1 = db := create_txn_eq_none hc
        subst hdb1
        simp only [hc]
        exact ih _
      · rename_i je
        obtain ⟨-, hdb1, -, -, -⟩ := create_txn_eq_some hc
        subst hdb1
        simp only [hc]
        obtain ⟨h1, h2⟩ := ih (add_entry db je)
        exact ⟨by simpa [add_entry] using h1, by simpa [add_entry] using h2⟩

/-- The migration loop only appends entries, each linked to a processed,
previously unlinked transaction. -/
lemma migrate_loop_entries (ex : List Nat) (ts : List Transaction) : ∀ db : DB,
    ∃ new, (migrate_loop ex db ts).2.entries = db.entries ++ new ∧
      ∀ e ∈ new, ∃ u ∈ ts, e.transaction_id = some u.id ∧ u.id ∉ ex := by
  induction ts with
  | nil => intro db; exact ⟨[], by simp [migrate_loop], by simp⟩
  | cons t ts ih =>
    intro db
    unfold migrate_loop
    by_cases hmem : t.id ∈ ex
    · simp only [hmem, if_true, reduceIte]
      obtain ⟨new, h1, h2⟩ := ih db
      exact ⟨new, h1, fun e he =>
        (h2 e he).elim fun u hu => ⟨u, by simp [hu.1], hu.2.1, hu.2.2⟩⟩
    · simp only [hmem, if_false, reduceIte]
      rcases hc : create_je_for_transaction db t with ⟨r, db1⟩
      cases r
      · have hdb1 : db1 = db := create_txn_eq_none hc
        subst hdb1
        simp only [hc]
        obtain ⟨new, h1, h2⟩ := ih _
        exact ⟨new, h1, fun e he =>
          (h2 e he).elim fun u hu => ⟨u, by simp [hu.1], hu.2.1, hu.2.2⟩⟩
      · rename_i je
        obtain ⟨-, hdb1, hjid, -, -⟩ := create_txn_eq_some hc
        subst hdb1
        simp only [hc]
        obtain ⟨new, h1, h2⟩ := ih (add_entry db je)
        refine ⟨je :: new, ?_, ?_⟩
        · rw [h1]
          simp [add_entry]
        · intro e he
          rcases List.mem_cons.mp he with rfl | hret
          · exact ⟨t, by simp, hjid, hmem⟩
          · exact (h2 e hret).elim fun u hu => ⟨u, by simp [hu.1], hu.2.1, hu.2.2⟩

/-- If no remaining unlinked transaction can post, the loop is a no-op. -/
lemma migrate_loop_zero (ex : List Nat) (ts : List Transaction) : ∀ db : DB,
    (∀ t ∈ ts, t.id ∉ ex → (create_je_for_transaction db t).1 = none) →
    migrate_loop ex db ts = (0, db) := by
  induction ts with
  | nil => intro db _; rfl
  | cons t ts ih =>
    intro db h
    unfold migrate_loop
    by_cases hmem : t.id ∈ ex
    · simp only [hmem, if_true, reduceIte]
      exact ih db (fun u hu hnu => h u (by simp [hu]) hnu)
    · simp only [hmem, if_false, reduceIte]
      have hn := h t (by simp) hmem
      rcases hc : create_je_for_transaction db t with ⟨r, db1⟩
      have hr : r = none := by rw [hc] at hn; exact hn
      subst hr
      have hdb1 : db1 = db := create_txn_eq_none hc
      subst hdb1
      simp only [hc]
      exact ih _ (fun u hu hnu => h u (by simp [hu]) hnu)

/-- A transaction that is unlinked and can post on the current chart ends the
loop linked. -/
lemma migrate_loop_links (ex : List Nat) (ts : List Transaction) : ∀ db db0 : DB,
    db.accounts = db0.accounts →
    ∀ t ∈ ts, t.id ∉ ex → (create_je_for_transaction db0 t).1.isSome = true →
      t.id ∈ linked_txn_ids (migrate_loop ex db ts).2.entries := by
  induction ts with
  | nil => intro db db0 hacc t ht; simp at ht
  | cons u ts ih =>
    intro db db0 hacc t ht hnotex hsome
    unfold migrate_loop
    rcases List.mem_cons.mp ht with rfl | htts
    · simp only [hnotex, if_false, reduceIte]
      rcases hc : create_je_for_transaction db t with ⟨r, db1⟩
      cases r
      · exfalso
        have hcongr := create_txn_isSome_congr hacc t
        rw [hc] at hcongr
        simp at hcongr
        rw [hcongr] at hsome
        simp at hsome
      · rename_i je
        obtain ⟨-, hdb1, hjid, -, -⟩ := create_txn_eq_some hc
        subst hdb1
        simp only [hc]
        obtain ⟨new, hnew, -⟩ := migrate_loop_entries ex ts (add_entry db je)
        unfold linked_txn_ids
        rw [hnew]
        simp [add_entry, List.filterMap_append, hjid]
    · by_cases hmem : u.id ∈ ex
      · simp only [hmem, if_true, reduceIte]
        exact ih db db0 hacc t htts hnotex hsome
      · simp only [hmem, if_false, reduceIte]
        rcases hc : create_je_for_transaction db u with ⟨r, db1⟩
        cases r
        · have hdb1 : db1 = db := create_txn_eq_none hc
          subst hdb1
          simp only [hc]
          exact ih _ db0 hacc t htts hnotex hsome
        · rename_i je
          obtain ⟨-, hdb1, -, -, -⟩ := create_txn_eq_some hc
          subst hdb1
          simp only [hc]
          exact ih (add_entry db je) db0 (by simpa [add_entry] using hacc) t htts hnotex hsome

/-- Exact bookkeeping of per-transaction entry counts through one pass. -/
lemma migrate_loop_count (ex : List Nat) (tid : Nat) (ts : List Transaction) :
    ∀ db db0 : DB, db.accounts = db0.accounts →
    count_linked (migrate_loop ex db ts).2 tid
      = count_linked db tid + migrate_creates db0 ex ts tid := by
  induction ts with
  | nil => intro db db0 _; simp [migrate_loop, migrate_creates]
  | cons u ts ih =>
    intro db db0 hacc
    unfold migrate_loop migrate_creates
    rw [List.countP_cons]
    by_cases hmem : u.id ∈ ex
    · have hpred : (u.id == tid && !decide (u.id ∈ ex)
          && (create_je_for_transaction db0 u).1.isSome) = false := by
        simp [hmem]
      rw [if_pos hmem, hpred]
      have := ih db db0 hacc
      unfold migrate_creates at this
      simp [this]
    · rw [if_neg hmem]
      rcases hc : create_je_for_transaction db u with ⟨r, db1⟩
      cases r
      · have hdb1 : db1 = db := create_txn_eq_none hc
        subst hdb1
        simp only [hc]
        have hfalse : (create_je_for_transaction db0 u).1.isSome = false := by
          rw [← create_txn_isSome_congr hacc u, hc]
          rfl
        have hpred : (u.id == tid && !decide (u.id ∈ ex)
            && (create_je_for_transaction db0 u).1.isSome) = false := by
          simp [hfalse]
        rw [hpred]
        have := ih _ db0 hacc
        unfold migrate_creates at this
        simp [this]
      · rename_i je
        obtain ⟨-, hdb1, hjid, -, -⟩ := create_txn_eq_some hc
        subst hdb1
        simp only [hc]
        have htrue : (create_je_for_transaction db0 u).1.isSome = true := by
          rw [← create_txn_isSome_congr hacc u, hc]
          rfl
        have hpred : (u.id == tid && !decide (u.id ∈ ex)
            && (create_je_for_transaction db0 u).1.isSome) = (u.id == tid) := by
          simp [hmem, htrue]
        rw [hpred]
        have hstep := ih (add_entry db je) db0 (by simpa [add_entry] using hacc)
        unfold migrate_creates at hstep
        rw [hstep]
        have hadd : count_linked (add_entry db je) tid
            = count_linked db tid + (if u.id == tid then 1 else 0) := by
          unfold count_linked add_entry
          simp only [List.filter_append, List.length_append]
          by_cases hu : u.id = tid
          · simp [hjid, hu]
          · simp [hjid, hu]
        rw [hadd]
        by_cases hu : u.id = tid <;> simp [hu] <;> omega

/-- Claim C8: the migration/backfill driver is idempotent.  (1) Running it a
second time creates zero entries and leaves the state unchanged; (2) a
transaction that already has a linked entry gets no new one (an entry is
created only if no entry with that transaction_id exists); (3) with unique
transaction ids, a qualifying transaction (unlinked, and postable on the
current chart) ends up with exactly one linked entry. -/
theorem claim_migration_idempotent :
    (∀ db : DB, migrate_existing_transactions (migrate_existing_transactions db).2
        = (0, (migrate_existing_transactions db).2)) ∧
    (∀ (db : DB) (tid : Nat), tid ∈ linked_txn_ids db.entries →
        count_linked (migrate_existing_transactions db).2 tid = count_linked db tid) ∧
    (∀ (db : DB) (t : Transaction), (db.transactions.map (·.id)).Nodup →
        t ∈ db.transactions → t.id ∉ linked_txn_ids db.entries →
        (create_je_for_transaction db t).1.isSome = true →
        count_linked (migrate_existing_transactions db).2 t.id = 1) := by
  refine ⟨?_, ?_, ?_⟩
  · intro db
    obtain ⟨hacc, htr⟩ := migrate_loop_pres (linked_txn_ids db.entries) db.transactions db
    obtain ⟨new, hnew, -⟩ := migrate_loop_entries (linked_txn_ids db.entries) db.transactions db
    unfold migrate_existing_transactions
    apply migrate_loop_zero
    intro t ht hnot
    have ht' : t ∈ db.transactions := by rwa [htr] at ht
    have hnotex : t.id ∉ linked_txn_ids db.entries := by
      intro hmem
      apply hnot
      rw [hnew]
      unfold linked_txn_ids at hmem ⊢
      rw [List.filterMap_append]
      exact List.mem_append_left _ hmem
    cases hcc : (create_je_for_transaction
        (migrate_loop (linked_txn_ids db.entries) db db.transactions).2 t).1
    · rfl
    · exfalso
      have hsome1 : (create_je_for_transaction
          (migrate_loop (linked_txn_ids db.entries) db db.transactions).2 t).1.isSome
          = true := by rw [hcc]; rfl
      have hsome0 : (create_je_for_transaction db t).1.isSome = true := by
        rw [← create_txn_isSome_congr hacc t]
        exact hsome1
      exact hnot (migrate_loop_links (linked_txn_ids db.entries) db.transactions
        db db rfl t ht' hnotex hsome0)
  · intro db tid hmem
    unfold migrate_existing_transactions
    rw [migrate_loop_count (linked_txn_ids db.entries) tid db.transactions db db rfl]
    have hz : migrate_creates db (linked_txn_ids db.entries) db.transactions tid = 0 := by
      unfold migrate_creates
      rw [List.countP_eq_zero]
      intro u hu
      by_cases hid : u.id = tid
      · simp [hid, hmem]
      · simp [hid]
    rw [hz]
    omega
  · intro db t hnodup hmem hnotlink hsome
    unfold migrate_existing_transactions
    rw [migrate_loop_count (linked_txn_ids db.entries) t.id db.transactions db db rfl]
    have h0 : count_linked db t.id = 0 := by
      unfold count_linked
      rw [List.length_eq_zero, List.filter_eq_nil_iff]
      intro e he
      simp only [beq_iff_eq]
      intro hET
      apply hnotlink
      unfold linked_txn_ids
      exact List.mem_filterMap.mpr ⟨e, he, hET⟩
    have h1 : migrate_creates db (linked_txn_ids db.entries) db.transactions t.id = 1 := by
      unfold migrate_creates
      apply countP_eq_one_of_nodup_key (·.id) _ _ hnodup t hmem
      · simp [hnotlink, hsome]
      · intro x hx hpx
        simp only [Bool.and_eq_true, beq_iff_eq] at hpx
        exact hpx.1.1
    rw [h0, h1]

/-- Witness for C8 at a concrete fixture: the second pass is a no-op, the
already-linked transaction 5 keeps its single entry, and the qualifying
transaction 7 ends with exactly one linked entry. -/
theorem claim_migration_idempotent_witness :
    migrate_existing_transactions (migrate_existing_transactions mig_db).2
      = (0, (migrate_existing_transactions mig_db).2) ∧
    count_linked (migrate_existing_transactions mig_db).2 5 = count_linked mig_db 5 ∧
    count_linked (migrate_existing_transactions mig_db).2 7 = 1 := by
  obtain ⟨h1, h2, h3⟩ := claim_migration_idempotent
  exact ⟨h1 mig_db,
         h2 mig_db 5 (by decide),
         h3 mig_db txn100 (by decide) (by decide) (by decide) (by with_unfolding_all rfl)⟩

end AiAccountant
